import Mathlib

/-!
Dialog engine of the intake bot (`main.go`).

A shallow embedding of `handleMessage` and the functions it calls, followed by
theorems about the per-chat conversation state machine.

Modelling conventions.

* `userStates` (a Go `map[int64]*UserState`) is a total function from chat ids
  to `Option UserState`.  Every pointer stored in the map is created by a
  fresh `&UserState{...}` and is reachable only through its own key, so the
  in-place mutations `state.Step = ...` and `state.Data[...] = ...` are updates
  of the entry the pointer was read from.
* `map[string]string` is an association list read with `Data.get` and written
  with `Data.set`.  Every `Data` map of the program is created by `make`, so
  no stored state holds a nil map and `UserState.Data` is never nil.  A state
  built by hand with a nil map, on which a write panics, is a `RawUserState`;
  `continueWaterDialogRaw` and `continue3DDialogRaw` are the dialog functions
  on such states.  Go leaves the iteration order of a map unspecified; the
  order of the list is a representation detail and is never an iteration order.
* `int64` chat ids and the `int` step counter are `Int`: the program does no
  arithmetic on them (steps are assigned as constants).
* Text is a `String` (a sequence of Unicode code points).  Telegram delivers
  valid UTF-8, on which Go's byte-wise `==` and `strings.Contains` agree with
  their code-point-wise counterparts.
* Side effects are returned as a list, in program order: `bot.Send`, and the
  calls of `saveApplicationToFile` and `sendAdminNotification` with their
  arguments.  The bodies of these two functions are modelled separately
  (`perform` turns a call into its file system calls, sends and log lines);
  what they read from the surroundings (clock, `range` order, success or
  failure of the write and of the send) is the record `Env`.  The `log.Printf`
  calls of `handleMessage` itself are not recorded.
* `time.Now().Format("2006-01-02_15-04-05")`, read when a summary is built, is
  the parameter `now`.
-/

namespace Vitim

/-! ## Go standard library -/

/-- Go `unicode.IsSpace`: the Unicode White_Space property. -/
def isSpace (c : Char) : Bool :=
  let n := c.toNat
  (9 ≤ n && n ≤ 13) || n == 0x20 || n == 0x85 || n == 0xA0 || n == 0x1680 ||
  (0x2000 ≤ n && n ≤ 0x200A) || n == 0x2028 || n == 0x2029 || n == 0x202F ||
  n == 0x205F || n == 0x3000

/-- Go `strings.TrimSpace`: drop leading and trailing white space. -/
def TrimSpace (s : String) : String :=
  ⟨((s.data.dropWhile isSpace).reverse.dropWhile isSpace).reverse⟩

/-- Go `strings.HasPrefix` on code points. -/
def hasPrefix : List Char → List Char → Bool
  | _, [] => true
  | [], _ :: _ => false
  | c :: s, p :: ps => c == p && hasPrefix s ps

/-- Search for `substr` at every position of `s`. -/
def containsChars : List Char → List Char → Bool
  | [], substr => hasPrefix [] substr
  | c :: s, substr => hasPrefix (c :: s) substr || containsChars s substr

/-- Go `strings.Contains`. -/
def Contains (s substr : String) : Bool :=
  containsChars s.data substr.data

/-! ## Data model -/

/-- Go `map[string]string`. -/
abbrev Data := List (String × String)

/-- Go `data[key]`: the zero value `""` when the key is absent. -/
def Data.get (data : Data) (key : String) : String :=
  (data.lookup key).getD ""

/-- Go `data[key] = value`. -/
def Data.set : Data → String → String → Data
  | [], key, value => [(key, value)]
  | (k, v) :: rest, key, value =>
    if k = key then (key, value) :: rest else (k, v) :: Data.set rest key value

/-- The keys present in a map. -/
def Data.keys (data : Data) : List String :=
  data.map Prod.fst

/-- Go `UserState`. -/
structure UserState where
  ChatID : Int
  ServiceType : String
  Step : Int
  Data : Data
  deriving DecidableEq, Repr

/-- Go `userStates`: `map[int64]*UserState`. -/
abbrev Store := Int → Option UserState

/-- The map right after `make(map[int64]*UserState)`. -/
def Store.empty : Store := fun _ => none

/-- Go `userStates[chatID] = state`. -/
def Store.put (userStates : Store) (chatID : Int) (state : UserState) : Store :=
  fun k => if k = chatID then some state else userStates k

/-- Go `delete(userStates, chatID)`. -/
def Store.delete (userStates : Store) (chatID : Int) : Store :=
  fun k => if k = chatID then none else userStates k

/-- The `ReplyMarkup` field of an outgoing message. -/
inductive Markup where
  | none
  | keyboard (rows : List (List String))
  | remove (selective : Bool)
  deriving DecidableEq, Repr

/-- A `tgbotapi.MessageConfig` as built by `tgbotapi.NewMessage`. -/
structure MessageConfig where
  ChatID : Int
  Text : String
  ParseMode : String
  ReplyMarkup : Markup
  deriving DecidableEq, Repr

/-- The observable actions of the handler. -/
inductive Effect where
  | send (msg : MessageConfig)
  | saveApplicationToFile (chatID : Int) (data : Data) (serviceType : String)
  | sendAdminNotification (title : String) (data : Data)
  deriving DecidableEq, Repr

/-! ## Texts of the program -/

def restartLabel : String := "🔄 Начать заново"

def waterLabel : String := "1️⃣ Консультация по водоснабжению"

def model3DLabel : String := "2️⃣ Разработка 3D модели"

def doneLabel : String := "Готово"

def startText : String :=
  "👋 *Здравствуйте! Я бот компании ВиТИМ* (Водоснабжение и Технологии Информационного Моделирования)\n\n*Чем я могу вам помочь?*\n\nМы специализируемся на:\n• 🏗️ Проектировании систем водоснабжения и водоотведения\n• 🔧 Разработке 3D моделей на языке GDL для ArchiCAD\n\n*Выберите услугу:*\n1️⃣ Консультация по водоснабжению\n2️⃣ Разработка 3D модели\n\n_В любой момент можете отправить /restart для начала заново_"

def waterQuestion1 : String :=
  "💧 *Консультация по водоснабжению*\n\n*Шаг 1 из 6*\n*Проект какой системы необходимо разработать?*\n(Например: ХВС, ГВС, канализация, водосток и т.д.)"

def waterQuestion2 : String :=
  "💧 *Консультация по водоснабжению*\n\n*Шаг 2 из 6*\n*Введите наименование объекта:*\n(жилой дом / гостиница / школа / больница / другое)\n\n_Для отмены отправьте /restart_"

def waterQuestion3 : String :=
  "💧 *Консультация по водоснабжению*\n\n*Шаг 3 из 6*\n*Введите данные об объекте:*\n• Месторасположение\n• Этажность\n• Строительный объем\n        \n*Пример:* Москва, ул. Ленина 10, 5 этажей, 12000 м³\n\n_Для отмены отправьте /restart_"

def waterQuestion4 : String :=
  "💧 *Консультация по водоснабжению*\n\n*Шаг 4 из 6*\n*Дополнительная информация:*\n1. Получено ли разрешение на строительство?\n2. Какой предполагаемый срок проектирования?\n\n_Для отмены отправьте /restart_"

def waterQuestion5 : String :=
  "💧 *Консультация по водоснабжению*\n\n*Шаг 5 из 6*\n*Введите контактные данные для связи:*\n• Email (обязательно)\n• Телефон\n• Telegram (если отличается от текущего)\n\n*Пример:* client@email.ru, +79161234567, @username\n\n_Для отмены отправьте /restart_"

/-- The step-6 prompt of the water flow, with the address it quotes. -/
def waterQuestion6 (email : String) : String :=
  "💧 *Консультация по водоснабжению*\n\n*Шаг 6 из 6*\n*Последний вопрос:*\nСпасибо! Вся информация собрана.\n\n✅ *Мы вышлем проект коммерческого предложения на " ++ email ++
  " в течение 2-х часов.*\n\nДля подтверждения отправки заявки нажмите \"Готово\".\n\n_Для отмены отправьте /restart_"

def model3DQuestion1 : String :=
  "🔄 *Разработка 3D модели для ArchiCAD*\n\n*Шаг 1 из 4*\n*Введите название 3D элемента, который вам необходимо разработать:*\n(Например: Специальный клапан, Декоративная решетка и т.д.)"

def model3DQuestion2 : String :=
  "🔄 *Разработка 3D модели для ArchiCAD*\n\n*Шаг 2 из 4*\n*Введите требования для разработки:*\n• Примерные габариты\n• Примерное количество конфигураций\n• Требования к пользовательскому интерфейсу\n        \n*Пример:* 300x400x500 мм, 3 конфигурации, простой интерфейс с выпадающим списком\n\n_Для отмены отправьте /restart_"

def model3DQuestion3 : String :=
  "🔄 *Разработка 3D модели для ArchiCAD*\n\n*Шаг 3 из 4*\n*Введите контактные данные для связи:*\n• Email (обязательно)\n• Телефон\n• Telegram (если отличается от текущего)\n\n*Пример:* designer@studio.ru, +79167654321, @designer\n\n_Для отмены отправьте /restart_"

/-- The step-4 prompt of the 3D flow, with the address it quotes. -/
def model3DQuestion4 (email : String) : String :=
  "🔄 *Разработка 3D модели для ArchiCAD*\n\n*Шаг 4 из 4*\n*Последний вопрос:*\nСпасибо! Вся информация собрана.\n\n✅ *Мы вышлем проект коммерческого предложения на " ++ email ++
  " в течение 2-х часов.*\n\nДля подтверждения отправки заявки нажмите \"Готово\".\n\n_Для отмены отправьте /restart_"

def blankWarning : String := "⚠️ Пожалуйста, введите текст. Попробуйте снова:"

def confirmReminder : String := "Для завершения заявки нажмите кнопку \x27Готово\x27 или \x27🔄 Начать заново\x27 для отмены"

def defaultEmail : String := "указанный email"

def waterAdminTitle : String := "💧 НОВАЯ ЗАЯВКА ПО ВОДОСНАБЖЕНИЮ"

def model3DAdminTitle : String := "🔄 НОВАЯ ЗАЯВКА НА 3D МОДЕЛЬ"

/-- The completion message of the water flow. -/
def waterSummary (data : Data) (now : String) : String :=
  "✅ *Спасибо за обращение в компанию ВиТИМ!*\n\n✅ *Ваша заявка принята!*\n\n📧 *Мы вышлем проект коммерческого предложения на указанный email в течение 2-х часов.*\n\n👨‍💼 *С вами также свяжется специалист нашей компании в течение часа для уточнения деталей.*\n\n*Собранные данные:*\n• 🏗️ Система: " ++ Data.get data "system_type" ++
  "\n• 🏢 Объект: " ++ Data.get data "object_type" ++
  "\n• 📍 Детали: " ++ Data.get data "object_details" ++
  "\n• 📋 Доп. информация: " ++ Data.get data "additional_info" ++
  "\n• 📞 Контакты: " ++ Data.get data "contacts" ++
  "\n\n_Заявка №" ++ now

/-- The completion message of the 3D flow. -/
def model3DSummary (data : Data) (now : String) : String :=
  "✅ *Спасибо за обращение в компаню ВиТИМ!*\n\n✅ *Ваша заявка принята!*\n\n📧 *Мы вышлем проект коммерческого предложения на указанный email в течение 2-х часов.*\n\n👨‍💻 *С вами также свяжется наш 3D-специалист в течение часа для уточнения технических деталей.*\n\n*Собранные данные:*\n• 🔧 Название элемента: " ++ Data.get data "element_name" ++
  "\n• 📏 Требования: " ++ Data.get data "requirements" ++
  "\n• 📞 Контакты: " ++ Data.get data "contacts" ++
  "\n\n_Заявка №" ++ now

/-! ## The handler -/

/-- Go `sendStartMessage`: the welcome message with the flow-selection keyboard. -/
def sendStartMessage (chatID : Int) : List Effect :=
  [Effect.send ⟨chatID, startText, "Markdown",
    Markup.keyboard [[waterLabel], [model3DLabel], [restartLabel]]⟩]

/-- Go `startWaterConsultation`. -/
def startWaterConsultation (userStates : Store) (chatID : Int) : Store × List Effect :=
  (userStates.put chatID ⟨chatID, "water", 1, []⟩,
   [Effect.send ⟨chatID, waterQuestion1, "Markdown", Markup.none⟩])

/-- Go `start3DModeling`. -/
def start3DModeling (userStates : Store) (chatID : Int) : Store × List Effect :=
  (userStates.put chatID ⟨chatID, "3d", 1, []⟩,
   [Effect.send ⟨chatID, model3DQuestion1, "Markdown", Markup.none⟩])

/-- The two-button keyboard attached to the confirmation prompt. -/
def confirmKeyboard : Markup :=
  Markup.keyboard [[doneLabel], [restartLabel]]

/-- Go `continueWaterDialog`; `state` is the entry of `chatID` in `userStates`. -/
def continueWaterDialog (now : String) (userStates : Store) (chatID : Int) (text : String)
    (state : UserState) : Store × List Effect :=
  if text = "/restart" ∨ text = restartLabel then
    (userStates.delete chatID, sendStartMessage chatID)
  else if TrimSpace text = "" then
    (userStates, [Effect.send ⟨chatID, blankWarning, "", Markup.none⟩])
  else if state.Step = 1 then
    (userStates.put chatID { state with Data := Data.set state.Data "system_type" text, Step := 2 },
     [Effect.send ⟨chatID, waterQuestion2, "Markdown", Markup.none⟩])
  else if state.Step = 2 then
    (userStates.put chatID { state with Data := Data.set state.Data "object_type" text, Step := 3 },
     [Effect.send ⟨chatID, waterQuestion3, "Markdown", Markup.none⟩])
  else if state.Step = 3 then
    (userStates.put chatID { state with Data := Data.set state.Data "object_details" text, Step := 4 },
     [Effect.send ⟨chatID, waterQuestion4, "Markdown", Markup.none⟩])
  else if state.Step = 4 then
    (userStates.put chatID { state with Data := Data.set state.Data "additional_info" text, Step := 5 },
     [Effect.send ⟨chatID, waterQuestion5, "Markdown", Markup.none⟩])
  else if state.Step = 5 then
    let email := if text.utf8ByteSize > 0 then text else defaultEmail
    (userStates.put chatID { state with Data := Data.set state.Data "contacts" text, Step := 6 },
     [Effect.send ⟨chatID, waterQuestion6 email, "Markdown", confirmKeyboard⟩])
  else if state.Step = 6 then
    if text = doneLabel then
      (userStates.delete chatID,
       [Effect.saveApplicationToFile chatID state.Data "water",
        Effect.send ⟨chatID, waterSummary state.Data now, "Markdown", Markup.remove true⟩,
        Effect.sendAdminNotification waterAdminTitle state.Data])
    else if text = "/restart" ∨ text = restartLabel then
      (userStates.delete chatID, sendStartMessage chatID)
    else
      (userStates, [Effect.send ⟨chatID, confirmReminder, "", Markup.none⟩])
  else
    (userStates, [])

/-- Go `continue3DDialog`; `state` is the entry of `chatID` in `userStates`. -/
def continue3DDialog (now : String) (userStates : Store) (chatID : Int) (text : String)
    (state : UserState) : Store × List Effect :=
  if text = "/restart" ∨ text = restartLabel then
    (userStates.delete chatID, sendStartMessage chatID)
  else if TrimSpace text = "" then
    (userStates, [Effect.send ⟨chatID, blankWarning, "", Markup.none⟩])
  else if state.Step = 1 then
    (userStates.put chatID { state with Data := Data.set state.Data "element_name" text, Step := 2 },
     [Effect.send ⟨chatID, model3DQuestion2, "Markdown", Markup.none⟩])
  else if state.Step = 2 then
    (userStates.put chatID { state with Data := Data.set state.Data "requirements" text, Step := 3 },
     [Effect.send ⟨chatID, model3DQuestion3, "Markdown", Markup.none⟩])
  else if state.Step = 3 then
    let email := if text.utf8ByteSize > 0 then text else defaultEmail
    (userStates.put chatID { state with Data := Data.set state.Data "contacts" text, Step := 4 },
     [Effect.send ⟨chatID, model3DQuestion4 email, "Markdown", confirmKeyboard⟩])
  else if state.Step = 4 then
    if text = doneLabel then
      (userStates.delete chatID,
       [Effect.saveApplicationToFile chatID state.Data "3d",
        Effect.send ⟨chatID, model3DSummary state.Data now, "Markdown", Markup.remove true⟩,
        Effect.sendAdminNotification model3DAdminTitle state.Data])
    else if text = "/restart" ∨ text = restartLabel then
      (userStates.delete chatID, sendStartMessage chatID)
    else
      (userStates, [Effect.send ⟨chatID, confirmReminder, "", Markup.none⟩])
  else
    (userStates, [])

/-- Go `continueDialog`. -/
def continueDialog (now : String) (userStates : Store) (chatID : Int) (text : String)
    (state : UserState) : Store × List Effect :=
  if state.ServiceType = "water" then
    continueWaterDialog now userStates chatID text state
  else
    continue3DDialog now userStates chatID text state

/-- Go `handleMessage`: the new store and the actions performed, in order. -/
def handleMessage (now : String) (userStates : Store) (chatID : Int) (text : String) :
    Store × List Effect :=
  if text = "/start" ∨ text = "/restart" ∨ text = restartLabel then
    (userStates.delete chatID, sendStartMessage chatID)
  else if Contains text "Консультация" && Contains text "водоснабжению" then
    startWaterConsultation userStates chatID
  else if Contains text "Разработка" && Contains text "3D" then
    start3DModeling userStates chatID
  else if text = doneLabel then
    match userStates chatID with
    | some state => continueDialog now userStates chatID text state
    | none => (userStates, sendStartMessage chatID)
  else
    match userStates chatID with
    | some state => continueDialog now userStates chatID text state
    | none => (userStates, sendStartMessage chatID)

/-- A `*UserState` as a caller of the dialog functions may build it by hand: unlike the
states the program stores, its `Data` field may be the nil map (`none`). -/
structure RawUserState where
  ChatID : Int
  ServiceType : String
  Step : Int
  Data : Option Data
  deriving DecidableEq, Repr

/-- Go `continueWaterDialog` on a state whose `Data` may be the nil map; the result `none`
is a run-time panic.  Reading a nil map (`state.Data[key]`, `range data`) behaves as reading
an empty map.  Writing to it panics: `state.Data[key] = text` is the first statement of the
cases 1 to 5, reached after the restart check and the blank guard and before any
`bot.Send`. -/
def continueWaterDialogRaw (now : String) (userStates : Store) (chatID : Int) (text : String)
    (state : RawUserState) : Option (Store × List Effect) :=
  if state.Data = none ∧ ¬ (text = "/restart" ∨ text = restartLabel) ∧ TrimSpace text ≠ "" ∧
      1 ≤ state.Step ∧ state.Step ≤ 5 then
    none
  else
    some (continueWaterDialog now userStates chatID text
      ⟨state.ChatID, state.ServiceType, state.Step, state.Data.getD []⟩)

/-- Go `continue3DDialog` on a state whose `Data` may be the nil map; the result `none` is
a run-time panic.  The assignment `state.Data[key] = text` is the first statement of the
cases 1 to 3. -/
def continue3DDialogRaw (now : String) (userStates : Store) (chatID : Int) (text : String)
    (state : RawUserState) : Option (Store × List Effect) :=
  if state.Data = none ∧ ¬ (text = "/restart" ∨ text = restartLabel) ∧ TrimSpace text ≠ "" ∧
      1 ≤ state.Step ∧ state.Step ≤ 3 then
    none
  else
    some (continue3DDialog now userStates chatID text
      ⟨state.ChatID, state.ServiceType, state.Step, state.Data.getD []⟩)

/-- Go `main`, the update loop: the inbound messages are handled one after another.
An update carries the clock reading, the chat id and the text. -/
structure Update where
  now : String
  chatID : Int
  text : String
  deriving DecidableEq, Repr

/-- The store and the actions after handling a sequence of updates in order. -/
def runUpdates (userStates : Store) : List Update → Store × List Effect
  | [] => (userStates, [])
  | u :: us =>
    let r := handleMessage u.now userStates u.chatID u.text
    let rest := runUpdates r.1 us
    (rest.1, r.2 ++ rest.2)

/-! ## The submission sink -/

/-- Go `adminChatID`, the fixed chat of the operator. -/
def adminChatID : Int := 7082303368

/-- What the surroundings decide while `saveApplicationToFile` and `sendAdminNotification`
run: the clock readings, the order in which each `for key, value := range data` visits the
entries of the map (Go leaves it unspecified), and whether `os.WriteFile` and the `bot.Send`
to the operator return an error. -/
structure Env where
  fileStamp : String
  fileTime : String
  adminTime : String
  saveRange : Data → List (String × String)
  adminRange : Data → List (String × String)
  writeFails : Bool
  adminSendFails : Bool

/-- The primitive actions of a finalisation: messages handed to `bot.Send`, file system
calls and log lines of the two sink functions. -/
inductive Event where
  | send (msg : MessageConfig)
  | mkdirAll (path : String)
  | writeFile (filename content : String)
  | logSaved (filename : String)
  | logSaveError
  | logAdminError
  deriving DecidableEq, Repr

/-- Go `filename` in `saveApplicationToFile`. -/
def fileName (env : Env) (chatID : Int) (serviceType : String) : String :=
  "заявки/заявка_" ++ serviceType ++ "_" ++ toString chatID ++ "_" ++ env.fileStamp ++ ".txt"

/-- Go `content` in `saveApplicationToFile`, built by successive `content +=`. -/
def fileContent (env : Env) (chatID : Int) (data : Data) (serviceType : String) : String :=
  let content := "=== ЗАЯВКА ===\n"
  let content := content ++ ("Тип: " ++ serviceType ++ "\n")
  let content := content ++ ("ChatID: " ++ toString chatID ++ "\n")
  let content := content ++ ("Время: " ++ env.fileTime ++ "\n\n")
  let content := (env.saveRange data).foldl
    (fun content kv => content ++ (kv.1 ++ ": " ++ kv.2 ++ "\n")) content
  content ++ "\n=== КОНЕЦ ЗАЯВКИ ===\n"

/-- Go `saveApplicationToFile`. -/
def saveApplicationToFile (env : Env) (chatID : Int) (data : Data) (serviceType : String) :
    List Event :=
  [Event.mkdirAll "заявки",
   Event.writeFile (fileName env chatID serviceType) (fileContent env chatID data serviceType),
   if env.writeFails then Event.logSaveError
   else Event.logSaved (fileName env chatID serviceType)]

/-- The `switch key` of `sendAdminNotification`. -/
def adminFieldName (key : String) : String :=
  if key = "system_type" then "🏗️ Система"
  else if key = "object_type" then "🏢 Объект"
  else if key = "object_details" then "📍 Детали объекта"
  else if key = "additional_info" then "📋 Доп. информация"
  else if key = "element_name" then "🔧 Название элемента"
  else if key = "requirements" then "📏 Требования"
  else if key = "contacts" then "📞 Контакты"
  else key

/-- Go `message` in `sendAdminNotification`, built by successive `message +=`. -/
def adminMessageText (env : Env) (title : String) (data : Data) : String :=
  let message := "🚨 *" ++ title ++ "*\n\n"
  let message := message ++ ("📅 *Время:* " ++ env.adminTime ++ "\n\n")
  (env.adminRange data).foldl
    (fun message kv => message ++ ("*" ++ adminFieldName kv.1 ++ ":* " ++ kv.2 ++ "\n")) message

/-- Go `sendAdminNotification`. -/
def sendAdminNotification (env : Env) (title : String) (data : Data) : List Event :=
  Event.send ⟨adminChatID, adminMessageText env title data, "Markdown", Markup.none⟩ ::
    (if env.adminSendFails then [Event.logAdminError] else [])

/-- The primitive actions behind one action of the handler. -/
def perform (env : Env) : Effect → List Event
  | Effect.send msg => [Event.send msg]
  | Effect.saveApplicationToFile chatID data serviceType =>
    saveApplicationToFile env chatID data serviceType
  | Effect.sendAdminNotification title data => sendAdminNotification env title data

/-- The primitive actions behind a list of actions, in order. -/
def performAll (env : Env) : List Effect → List Event
  | [] => []
  | effect :: rest => perform env effect ++ performAll env rest

/-- The messages handed to `bot.Send`, in order. -/
def outbound : List Event → List MessageConfig
  | [] => []
  | Event.send msg :: rest => msg :: outbound rest
  | _ :: rest => outbound rest

/-! ## Vocabulary of the specification -/

/-- A restart token: `/start`, `/restart` or the restart button label. -/
def isRestartToken (text : String) : Prop :=
  text = "/start" ∨ text = "/restart" ∨ text = restartLabel

instance (text : String) : Decidable (isRestartToken text) := by
  unfold isRestartToken; infer_instance

/-- The text matches the selection pattern of the water flow. -/
def selectsWater (text : String) : Prop :=
  Contains text "Консультация" = true ∧ Contains text "водоснабжению" = true

instance (text : String) : Decidable (selectsWater text) := by
  unfold selectsWater; infer_instance

/-- The text matches the selection pattern of the 3D flow. -/
def selects3D (text : String) : Prop :=
  Contains text "Разработка" = true ∧ Contains text "3D" = true

instance (text : String) : Decidable (selects3D text) := by
  unfold selects3D; infer_instance

/-- The field keys of the water flow, by step. -/
def waterFields : List String :=
  ["system_type", "object_type", "object_details", "additional_info", "contacts"]

/-- The field keys of the 3D flow, by step. -/
def model3DFields : List String :=
  ["element_name", "requirements", "contacts"]

/-- The field key of step `step` (1-based) in a list of field keys. -/
def fieldKey (fields : List String) (step : Int) : String :=
  fields.getD (step - 1).toNat ""

/-- The prompt shown on entering a step of the water flow; `contacts` is the answer
quoted by the confirmation prompt. -/
def waterPrompt (chatID : Int) (step : Int) (contacts : String) : MessageConfig :=
  if step = 1 then ⟨chatID, waterQuestion1, "Markdown", Markup.none⟩
  else if step = 2 then ⟨chatID, waterQuestion2, "Markdown", Markup.none⟩
  else if step = 3 then ⟨chatID, waterQuestion3, "Markdown", Markup.none⟩
  else if step = 4 then ⟨chatID, waterQuestion4, "Markdown", Markup.none⟩
  else if step = 5 then ⟨chatID, waterQuestion5, "Markdown", Markup.none⟩
  else ⟨chatID, waterQuestion6 contacts, "Markdown", confirmKeyboard⟩

/-- The prompt shown on entering a step of the 3D flow. -/
def model3DPrompt (chatID : Int) (step : Int) (contacts : String) : MessageConfig :=
  if step = 1 then ⟨chatID, model3DQuestion1, "Markdown", Markup.none⟩
  else if step = 2 then ⟨chatID, model3DQuestion2, "Markdown", Markup.none⟩
  else if step = 3 then ⟨chatID, model3DQuestion3, "Markdown", Markup.none⟩
  else ⟨chatID, model3DQuestion4 contacts, "Markdown", confirmKeyboard⟩

/-- The welcome message. -/
def welcomeMessage (chatID : Int) : MessageConfig :=
  ⟨chatID, startText, "Markdown", Markup.keyboard [[waterLabel], [model3DLabel], [restartLabel]]⟩

/-- The calls of `saveApplicationToFile` in a list of actions, with their arguments. -/
def persistCalls : List Effect → List (Int × Data × String)
  | [] => []
  | Effect.saveApplicationToFile chatID data serviceType :: rest =>
    (chatID, data, serviceType) :: persistCalls rest
  | _ :: rest => persistCalls rest

/-- The calls of `sendAdminNotification` in a list of actions, with their arguments. -/
def notifyCalls : List Effect → List (String × Data)
  | [] => []
  | Effect.sendAdminNotification title data :: rest => (title, data) :: notifyCalls rest
  | _ :: rest => notifyCalls rest

/-- The messages handed to `bot.Send` by the handler body, in order. -/
def sentMessages : List Effect → List MessageConfig
  | [] => []
  | Effect.send msg :: rest => msg :: sentMessages rest
  | _ :: rest => sentMessages rest

/-- The state is at the confirmation step of its flow. -/
def atTerminalStep (state : UserState) : Prop :=
  (state.ServiceType = "water" ∧ state.Step = 6) ∨ (state.ServiceType = "3d" ∧ state.Step = 4)

instance (state : UserState) : Decidable (atTerminalStep state) := by
  unfold atTerminalStep; infer_instance

/-- A free-text answer: not blank, not a restart token and not a flow selection. -/
def isAnswer (text : String) : Prop :=
  TrimSpace text ≠ "" ∧ ¬ isRestartToken text ∧ ¬ selectsWater text ∧ ¬ selects3D text

instance (text : String) : Decidable (isAnswer text) := by
  unfold isAnswer; infer_instance

/-- The reply to a text that is neither the acknowledgement token, a restart token nor a
flow selection, at the confirmation step: the blank-input warning for a blank text, the
reminder to press the acknowledgement button otherwise. -/
def terminalReply (chatID : Int) (text : String) : MessageConfig :=
  ⟨chatID, if TrimSpace text = "" then blankWarning else confirmReminder, "", Markup.none⟩

/-- The invariant of a stored state: it sits under its own chat id, its flow and step are
in range, its data holds exactly the field keys of the steps already answered, and no
stored answer is blank. -/
def StateInv (chatID : Int) (state : UserState) : Prop :=
  state.ChatID = chatID ∧
  ((state.ServiceType = "water" ∧ 1 ≤ state.Step ∧ state.Step ≤ 6 ∧
      Data.keys state.Data = waterFields.take (state.Step - 1).toNat) ∨
   (state.ServiceType = "3d" ∧ 1 ≤ state.Step ∧ state.Step ≤ 4 ∧
      Data.keys state.Data = model3DFields.take (state.Step - 1).toNat)) ∧
  ∀ kv ∈ state.Data, TrimSpace kv.2 ≠ ""

/-- Every stored state satisfies the invariant. -/
def StoreInv (userStates : Store) : Prop :=
  ∀ chatID state, userStates chatID = some state → StateInv chatID state

/-- Scenario A: `/start`, the water button, five answers and the acknowledgement token,
all from one chat; `clock i` is the clock reading at the `i`-th message. -/
def scenarioA (clock : Nat → String) (chatID : Int) (a1 a2 a3 a4 a5 : String) : List Update :=
  [⟨clock 0, chatID, "/start"⟩, ⟨clock 1, chatID, waterLabel⟩, ⟨clock 2, chatID, a1⟩,
   ⟨clock 3, chatID, a2⟩, ⟨clock 4, chatID, a3⟩, ⟨clock 5, chatID, a4⟩,
   ⟨clock 6, chatID, a5⟩, ⟨clock 7, chatID, doneLabel⟩]

/-- The completion message for a state at its confirmation step. -/
def summaryMessage (chatID : Int) (state : UserState) (now : String) : MessageConfig :=
  ⟨chatID,
   if state.ServiceType = "water" then waterSummary state.Data now
   else model3DSummary state.Data now,
   "Markdown", Markup.remove true⟩

/-- The title of the operator notification for a state at its confirmation step. -/
def adminTitle (state : UserState) : String :=
  if state.ServiceType = "water" then waterAdminTitle else model3DAdminTitle

/-- The operator notification. -/
def adminMessage (env : Env) (title : String) (data : Data) : MessageConfig :=
  ⟨adminChatID, adminMessageText env title data, "Markdown", Markup.none⟩

/-! ## Theorems -/

/-- C1: a restart token (`/start`, `/restart` or the restart button label), in any
store and for any chat, leaves the chat without state, sends exactly the welcome
message to that chat, and calls neither the persist nor the notify operation. -/
theorem restart_from_any_state (now : String) (userStates : Store) (chatID : Int)
    (text : String) (h : isRestartToken text) :
    (handleMessage now userStates chatID text).1 chatID = none ∧
    (handleMessage now userStates chatID text).2 = [Effect.send (welcomeMessage chatID)] ∧
    persistCalls (handleMessage now userStates chatID text).2 = [] ∧
    notifyCalls (handleMessage now userStates chatID text).2 = [] := by
  have h' : text = "/start" ∨ text = "/restart" ∨ text = restartLabel := h
  simp [handleMessage, h', Store.delete, sendStartMessage, welcomeMessage, persistCalls,
    notifyCalls]

/-- Witness of C1: the restart button pressed at the confirmation step of the water flow. -/
theorem restart_from_any_state_witness :
    isRestartToken restartLabel ∧
    (handleMessage "t" (Store.put Store.empty 7 ⟨7, "water", 6, [("system_type", "ХВС")]⟩) 7
        restartLabel).1 7 = none :=
  ⟨by decide, (restart_from_any_state "t" _ 7 restartLabel (by decide)).1⟩

/-- Past the restart and flow-selection checks, a chat with a state continues its dialog. -/
theorem handleMessage_of_state (now : String) (userStates : Store) (chatID : Int)
    (text : String) (state : UserState) (hs : userStates chatID = some state)
    (hr : ¬ isRestartToken text) (hw : ¬ selectsWater text) (h3 : ¬ selects3D text) :
    handleMessage now userStates chatID text =
      continueDialog now userStates chatID text state := by
  have hr' : ¬ (text = "/start" ∨ text = "/restart" ∨ text = restartLabel) := hr
  have hw' : ¬ (Contains text "Консультация" = true ∧ Contains text "водоснабжению" = true) := hw
  have h3' : ¬ (Contains text "Разработка" = true ∧ Contains text "3D" = true) := h3
  unfold handleMessage
  rw [if_neg hr']
  simp only [Bool.and_eq_true, if_neg hw', if_neg h3', hs, ite_self]

/-- Past the restart and flow-selection checks, a chat without state gets the welcome message. -/
theorem handleMessage_of_no_state (now : String) (userStates : Store) (chatID : Int)
    (text : String) (hs : userStates chatID = none)
    (hr : ¬ isRestartToken text) (hw : ¬ selectsWater text) (h3 : ¬ selects3D text) :
    handleMessage now userStates chatID text = (userStates, sendStartMessage chatID) := by
  have hr' : ¬ (text = "/start" ∨ text = "/restart" ∨ text = restartLabel) := hr
  have hw' : ¬ (Contains text "Консультация" = true ∧ Contains text "водоснабжению" = true) := hw
  have h3' : ¬ (Contains text "Разработка" = true ∧ Contains text "3D" = true) := h3
  unfold handleMessage
  rw [if_neg hr']
  simp only [Bool.and_eq_true, if_neg hw', if_neg h3', hs, ite_self]

/-- A text that is not a restart token passes the restart checks of the dialog functions. -/
theorem not_restart_inner (text : String) (hr : ¬ isRestartToken text) :
    ¬ (text = "/restart" ∨ text = restartLabel) := by
  intro h
  exact hr (Or.inr h)

/-- C2: a text that is not a restart token and matches the water pattern puts the chat
in a fresh water state at step 1 with empty data, whatever was stored before; otherwise
a text that matches the 3D pattern puts it in a fresh 3D state at step 1 with empty data.
The only action is sending that flow's step-1 prompt. -/
theorem flow_selection_overwrites (now : String) (userStates : Store) (chatID : Int)
    (text : String) (hr : ¬ isRestartToken text) :
    (selectsWater text →
      (handleMessage now userStates chatID text).1 chatID = some ⟨chatID, "water", 1, []⟩ ∧
      (handleMessage now userStates chatID text).2 =
        [Effect.send (waterPrompt chatID 1 "")]) ∧
    (¬ selectsWater text → selects3D text →
      (handleMessage now userStates chatID text).1 chatID = some ⟨chatID, "3d", 1, []⟩ ∧
      (handleMessage now userStates chatID text).2 =
        [Effect.send (model3DPrompt chatID 1 "")]) := by
  have hr' : ¬ (text = "/start" ∨ text = "/restart" ∨ text = restartLabel) := hr
  constructor
  · intro hw
    have hw' : Contains text "Консультация" = true ∧ Contains text "водоснабжению" = true := hw
    unfold handleMessage
    rw [if_neg hr']
    simp [hw'.1, hw'.2, startWaterConsultation, Store.put, waterPrompt]
  · intro hw h3
    have hw' : ¬ (Contains text "Консультация" = true ∧ Contains text "водоснабжению" = true) :=
      hw
    have h3' : Contains text "Разработка" = true ∧ Contains text "3D" = true := h3
    unfold handleMessage
    rw [if_neg hr']
    simp only [Bool.and_eq_true, if_neg hw']
    simp [h3'.1, h3'.2, start3DModeling, Store.put, model3DPrompt]

/-- Witness of C2 (scenario C): the 3D button pressed at step 2 of the water flow. -/
theorem flow_selection_overwrites_witness :
    ¬ isRestartToken model3DLabel ∧ ¬ selectsWater model3DLabel ∧ selects3D model3DLabel ∧
    (handleMessage "t" (Store.put Store.empty 7 ⟨7, "water", 2, [("system_type", "ХВС")]⟩) 7
        model3DLabel).1 7 = some ⟨7, "3d", 1, []⟩ :=
  ⟨by decide, by decide, by decide,
    ((flow_selection_overwrites "t" _ 7 model3DLabel (by decide)).2 (by decide)
      (by decide)).1⟩

/-- C7: a chat without state that sends a text which is neither a restart token nor a
flow selection gets the welcome message; no state is created (the store is unchanged) and
neither persist nor notify is called. -/
theorem no_state_no_match (now : String) (userStates : Store) (chatID : Int) (text : String)
    (hs : userStates chatID = none) (hr : ¬ isRestartToken text)
    (hw : ¬ selectsWater text) (h3 : ¬ selects3D text) :
    (handleMessage now userStates chatID text).1 = userStates ∧
    (handleMessage now userStates chatID text).1 chatID = none ∧
    (handleMessage now userStates chatID text).2 = [Effect.send (welcomeMessage chatID)] ∧
    persistCalls (handleMessage now userStates chatID text).2 = [] ∧
    notifyCalls (handleMessage now userStates chatID text).2 = [] := by
  rw [handleMessage_of_no_state now userStates chatID text hs hr hw h3]
  simp [hs, sendStartMessage, welcomeMessage, persistCalls, notifyCalls]

/-- Witness of C7: the acknowledgement token sent by a chat that has no state. -/
theorem no_state_no_match_witness :
    Store.empty 7 = none ∧ ¬ isRestartToken doneLabel ∧ ¬ selectsWater doneLabel ∧
    ¬ selects3D doneLabel ∧
    (handleMessage "t" Store.empty 7 doneLabel).2 = [Effect.send (welcomeMessage 7)] :=
  ⟨rfl, by decide, by decide, by decide,
    (no_state_no_match "t" Store.empty 7 doneLabel rfl (by decide) (by decide)
      (by decide)).2.2.1⟩

/-- Reading a key right after writing it gives the written value. -/
theorem lookup_set_self (data : Data) (key value : String) :
    List.lookup key (Data.set data key value) = some value := by
  induction data with
  | nil => simp [Data.set, List.lookup]
  | cons kv rest ih =>
    obtain ⟨k, v⟩ := kv
    by_cases hk : k = key
    · simp [Data.set, hk, List.lookup]
    · have hk' : (key == k) = false := by simpa using fun h => hk h.symm
      simp [Data.set, hk, List.lookup, hk', ih]

/-- Writing a key leaves every other key as it was. -/
theorem lookup_set_other (data : Data) (key value other : String) (h : other ≠ key) :
    List.lookup other (Data.set data key value) = List.lookup other data := by
  induction data with
  | nil =>
    have h' : (other == key) = false := by simpa using h
    simp [Data.set, List.lookup, h']
  | cons kv rest ih =>
    obtain ⟨k, v⟩ := kv
    by_cases hk : k = key
    · subst hk
      have h' : (other == k) = false := by simpa using h
      simp [Data.set, List.lookup, h']
    · simp only [Data.set, hk, if_false, List.lookup, ih]

/-- A string is blank exactly when all its characters are white space. -/
theorem trimSpace_eq_empty_iff (s : String) :
    TrimSpace s = "" ↔ ∀ c ∈ s.data, isSpace c = true := by
  have hmk : TrimSpace s = "" ↔
      ((s.data.dropWhile isSpace).reverse.dropWhile isSpace).reverse = [] := by
    unfold TrimSpace
    constructor
    · intro h
      exact congrArg String.data h
    · intro h
      rw [h]
  rw [hmk, List.reverse_eq_nil_iff, List.dropWhile_eq_nil_iff]
  constructor
  · intro h
    have hnil : s.data.dropWhile isSpace = [] := by
      cases hd : s.data.dropWhile isSpace with
      | nil => rfl
      | cons x xs =>
        have hx : isSpace x = true := h x (by rw [hd]; simp)
        have hx' := List.head_dropWhile_not isSpace s.data (by rw [hd]; simp)
        simp [hd, hx] at hx'
    exact List.dropWhile_eq_nil_iff.mp hnil
  · intro h x hx
    have hnil : s.data.dropWhile isSpace = [] := List.dropWhile_eq_nil_iff.mpr h
    rw [hnil] at hx
    simp at hx

/-- A text that is not blank has at least one byte. -/
theorem utf8ByteSize_pos_of_not_blank (text : String) (hb : TrimSpace text ≠ "") :
    text.utf8ByteSize > 0 := by
  obtain ⟨cs⟩ := text
  cases cs with
  | nil => exact absurd (by decide) hb
  | cons c cs =>
    have := Char.utf8Size_pos c
    simp only [String.utf8ByteSize, String.utf8ByteSize.go]
    omega

/-- C3: at a non-terminal step (water 1..5, 3D 1..3), a text that is not blank, not a
restart token and not a flow selection is stored verbatim under the field key of the
current step; every other entry, the chat id and the flow are unchanged; the step
advances by one; and the only action is sending the prompt of the new step. -/
theorem answer_capture (now : String) (userStates : Store) (chatID : Int) (text : String)
    (state : UserState) (hs : userStates chatID = some state)
    (hb : TrimSpace text ≠ "") (hr : ¬ isRestartToken text)
    (hw : ¬ selectsWater text) (h3 : ¬ selects3D text) :
    (state.ServiceType = "water" → 1 ≤ state.Step → state.Step ≤ 5 →
      (handleMessage now userStates chatID text).1 chatID =
        some { state with
          Step := state.Step + 1,
          Data := Data.set state.Data (fieldKey waterFields state.Step) text } ∧
      List.lookup (fieldKey waterFields state.Step)
        (Data.set state.Data (fieldKey waterFields state.Step) text) = some text ∧
      (∀ key, key ≠ fieldKey waterFields state.Step →
        List.lookup key (Data.set state.Data (fieldKey waterFields state.Step) text) =
          List.lookup key state.Data) ∧
      (handleMessage now userStates chatID text).2 =
        [Effect.send (waterPrompt chatID (state.Step + 1) text)]) ∧
    (state.ServiceType = "3d" → 1 ≤ state.Step → state.Step ≤ 3 →
      (handleMessage now userStates chatID text).1 chatID =
        some { state with
          Step := state.Step + 1,
          Data := Data.set state.Data (fieldKey model3DFields state.Step) text } ∧
      List.lookup (fieldKey model3DFields state.Step)
        (Data.set state.Data (fieldKey model3DFields state.Step) text) = some text ∧
      (∀ key, key ≠ fieldKey model3DFields state.Step →
        List.lookup key (Data.set state.Data (fieldKey model3DFields state.Step) text) =
          List.lookup key state.Data) ∧
      (handleMessage now userStates chatID text).2 =
        [Effect.send (model3DPrompt chatID (state.Step + 1) text)]) := by
  have hri := not_restart_inner text hr
  have hlen := utf8ByteSize_pos_of_not_blank text hb
  rw [handleMessage_of_state now userStates chatID text state hs hr hw h3]
  obtain ⟨cid, svc, step, data⟩ := state
  constructor
  · intro hsvc h1 h5
    simp only at hsvc h1 h5
    subst hsvc
    refine ⟨?_, lookup_set_self _ _ _, fun key hk => lookup_set_other _ _ _ _ hk, ?_⟩
    · have hcases : step = 1 ∨ step = 2 ∨ step = 3 ∨ step = 4 ∨ step = 5 := by omega
      rcases hcases with h | h | h | h | h <;> subst h <;>
        simp [continueDialog, continueWaterDialog, hri, hb, Store.put, fieldKey, waterFields]
    · have hcases : step = 1 ∨ step = 2 ∨ step = 3 ∨ step = 4 ∨ step = 5 := by omega
      rcases hcases with h | h | h | h | h <;> subst h <;>
        simp [continueDialog, continueWaterDialog, hri, hb, waterPrompt, hlen]
  · intro hsvc h1 h5
    simp only at hsvc h1 h5
    subst hsvc
    refine ⟨?_, lookup_set_self _ _ _, fun key hk => lookup_set_other _ _ _ _ hk, ?_⟩
    · have hcases : step = 1 ∨ step = 2 ∨ step = 3 := by omega
      rcases hcases with h | h | h <;> subst h <;>
        simp [continueDialog, continue3DDialog, hri, hb, Store.put, fieldKey, model3DFields]
    · have hcases : step = 1 ∨ step = 2 ∨ step = 3 := by omega
      rcases hcases with h | h | h <;> subst h <;>
        simp [continueDialog, continue3DDialog, hri, hb, model3DPrompt, hlen]

/-- Witness of C3 (scenario A): the answer "ХВС" at step 1 of the water flow. -/
theorem answer_capture_witness :
    TrimSpace "ХВС" ≠ "" ∧ ¬ isRestartToken "ХВС" ∧ ¬ selectsWater "ХВС" ∧ ¬ selects3D "ХВС" ∧
    (handleMessage "t" (Store.put Store.empty 7 ⟨7, "water", 1, []⟩) 7 "ХВС").1 7 =
      some ⟨7, "water", 2, [("system_type", "ХВС")]⟩ :=
  ⟨by decide, by decide, by decide, by decide,
    ((answer_capture "t" (Store.put Store.empty 7 ⟨7, "water", 1, []⟩) 7 "ХВС"
      ⟨7, "water", 1, []⟩ rfl (by decide) (by decide) (by decide) (by decide)).1 rfl
      (by decide) (by decide)).1⟩

/-- C4: at the confirmation step (water step 6, 3D step 4) the acknowledgement token
calls `saveApplicationToFile` exactly once, with the chat id, the collected data and the
flow label, calls `sendAdminNotification` exactly once, with the same data, and leaves the
chat without state. -/
theorem finalisation_on_acknowledgement (now : String) (userStates : Store) (chatID : Int)
    (state : UserState) (hs : userStates chatID = some state) (ht : atTerminalStep state) :
    persistCalls (handleMessage now userStates chatID doneLabel).2 =
      [(chatID, state.Data, state.ServiceType)] ∧
    (notifyCalls (handleMessage now userStates chatID doneLabel).2).map Prod.snd =
      [state.Data] ∧
    (handleMessage now userStates chatID doneLabel).1 chatID = none := by
  rw [handleMessage_of_state now userStates chatID doneLabel state hs (by decide) (by decide)
    (by decide)]
  have hri : ¬ (doneLabel = "/restart" ∨ doneLabel = restartLabel) := by decide
  have hb : TrimSpace doneLabel ≠ "" := by decide
  obtain ⟨cid, svc, step, data⟩ := state
  rcases ht with ⟨hsvc, hstep⟩ | ⟨hsvc, hstep⟩
  · simp only at hsvc hstep
    subst hsvc hstep
    simp [continueDialog, continueWaterDialog, hri, hb, persistCalls, notifyCalls,
      Store.delete]
  · simp only at hsvc hstep
    subst hsvc hstep
    simp [continueDialog, continue3DDialog, hri, hb, persistCalls, notifyCalls,
      Store.delete]

/-- Witness of C4: the acknowledgement token at step 4 of the 3D flow. -/
theorem finalisation_on_acknowledgement_witness :
    atTerminalStep ⟨7, "3d", 4, [("element_name", "a"), ("requirements", "b"),
      ("contacts", "c")]⟩ ∧
    persistCalls (handleMessage "t" (Store.put Store.empty 7 ⟨7, "3d", 4,
      [("element_name", "a"), ("requirements", "b"), ("contacts", "c")]⟩) 7 doneLabel).2 =
      [(7, [("element_name", "a"), ("requirements", "b"), ("contacts", "c")], "3d")] :=
  ⟨by decide, (finalisation_on_acknowledgement "t" (Store.put Store.empty 7 ⟨7, "3d", 4,
      [("element_name", "a"), ("requirements", "b"), ("contacts", "c")]⟩) 7 _ rfl
      (by decide)).1⟩

/-- A string that contains a non-empty substring contains its first character. -/
theorem mem_of_containsChars (s : List Char) (p : Char) (ps : List Char)
    (h : containsChars s (p :: ps) = true) : p ∈ s := by
  induction s with
  | nil => simp [containsChars, hasPrefix] at h
  | cons c s ih =>
    simp only [containsChars, hasPrefix, Bool.or_eq_true, Bool.and_eq_true, beq_iff_eq] at h
    rcases h with ⟨hc, _⟩ | h
    · simp [hc]
    · exact List.mem_cons_of_mem _ (ih h)

/-- A blank text contains no substring that starts with a non-space character. -/
theorem not_contains_of_blank (text : String) (p : Char) (ps : List Char)
    (hb : TrimSpace text = "") (hp : isSpace p = false) :
    Contains text ⟨p :: ps⟩ = false := by
  cases hc : Contains text ⟨p :: ps⟩ with
  | false => rfl
  | true =>
    have hmem := mem_of_containsChars text.data p ps hc
    have := (trimSpace_eq_empty_iff text).mp hb p hmem
    rw [hp] at this
    exact absurd this (by decide)

/-- A blank text is not a restart token, not a flow selection and not the
acknowledgement token. -/
theorem blank_is_no_token (text : String) (hb : TrimSpace text = "") :
    ¬ isRestartToken text ∧ ¬ selectsWater text ∧ ¬ selects3D text ∧ text ≠ doneLabel := by
  refine ⟨?_, ?_, ?_, ?_⟩
  · intro h
    rcases h with h | h | h <;> subst h <;> exact absurd hb (by decide)
  · intro h
    have := not_contains_of_blank text 'К' "онсультация".data hb (by decide)
    have h1 : Contains text "Консультация" = true := h.1
    have he : (⟨'К' :: "онсультация".data⟩ : String) = "Консультация" := by decide
    rw [he, h1] at this
    exact absurd this (by decide)
  · intro h
    have := not_contains_of_blank text 'Р' "азработка".data hb (by decide)
    have h1 : Contains text "Разработка" = true := h.1
    have he : (⟨'Р' :: "азработка".data⟩ : String) = "Разработка" := by decide
    rw [he, h1] at this
    exact absurd this (by decide)
  · intro h
    subst h
    exact absurd hb (by decide)

/-- C5: a text that is blank after trimming white space leaves the whole store
unchanged, whether or not the chat has a state and whatever its flow and step, and calls
neither persist nor notify. -/
theorem blank_input_keeps_store (now : String) (userStates : Store) (chatID : Int)
    (text : String) (hb : TrimSpace text = "") :
    (handleMessage now userStates chatID text).1 = userStates ∧
    persistCalls (handleMessage now userStates chatID text).2 = [] ∧
    notifyCalls (handleMessage now userStates chatID text).2 = [] := by
  obtain ⟨hr, hw, h3, _⟩ := blank_is_no_token text hb
  have hri := not_restart_inner text hr
  cases hs : userStates chatID with
  | none =>
    rw [handleMessage_of_no_state now userStates chatID text hs hr hw h3]
    simp [sendStartMessage, persistCalls, notifyCalls]
  | some state =>
    rw [handleMessage_of_state now userStates chatID text state hs hr hw h3]
    unfold continueDialog continueWaterDialog continue3DDialog
    simp [hri, hb, persistCalls, notifyCalls]

/-- Witness of C5: a white-space-only text at the confirmation step of the water flow. -/
theorem blank_input_keeps_store_witness :
    TrimSpace " \n" = "" ∧
    (handleMessage "t" (Store.put Store.empty 7 ⟨7, "water", 6, [("contacts", "c")]⟩) 7
      " \n").1 7 = some ⟨7, "water", 6, [("contacts", "c")]⟩ :=
  ⟨by decide, by
    rw [(blank_input_keeps_store "t" (Store.put Store.empty 7 ⟨7, "water", 6,
      [("contacts", "c")]⟩) 7 " \n" (by decide)).1]
    rfl⟩

/-- Handling a concatenation of update sequences. -/
theorem runUpdates_append (userStates : Store) (us vs : List Update) :
    runUpdates userStates (us ++ vs) =
      ((runUpdates (runUpdates userStates us).1 vs).1,
       (runUpdates userStates us).2 ++ (runUpdates (runUpdates userStates us).1 vs).2) := by
  induction us generalizing userStates with
  | nil => simp [runUpdates]
  | cons u us ih => simp [runUpdates, ih, List.append_assoc]

/-- Persist calls of a concatenation. -/
theorem persistCalls_append (xs ys : List Effect) :
    persistCalls (xs ++ ys) = persistCalls xs ++ persistCalls ys := by
  induction xs with
  | nil => simp [persistCalls]
  | cons x xs ih => cases x <;> simp [persistCalls, ih]

/-- Notify calls of a concatenation. -/
theorem notifyCalls_append (xs ys : List Effect) :
    notifyCalls (xs ++ ys) = notifyCalls xs ++ notifyCalls ys := by
  induction xs with
  | nil => simp [notifyCalls]
  | cons x xs ih => cases x <;> simp [notifyCalls, ih]

/-- A list of sends holds no persist call. -/
theorem persistCalls_map_send {α : Type} (f : α → MessageConfig) (xs : List α) :
    persistCalls (xs.map fun x => Effect.send (f x)) = [] := by
  induction xs with
  | nil => simp [persistCalls]
  | cons x xs ih => simp [persistCalls, ih]

/-- A list of sends holds no notify call. -/
theorem notifyCalls_map_send {α : Type} (f : α → MessageConfig) (xs : List α) :
    notifyCalls (xs.map fun x => Effect.send (f x)) = [] := by
  induction xs with
  | nil => simp [notifyCalls]
  | cons x xs ih => simp [notifyCalls, ih]

/-- At the confirmation step, a text other than the acknowledgement token, a restart token
or a flow selection changes nothing and is answered by one message. -/
theorem handleMessage_terminal_other (now : String) (userStates : Store) (chatID : Int)
    (text : String) (state : UserState) (hs : userStates chatID = some state)
    (ht : atTerminalStep state) (hd : text ≠ doneLabel) (hr : ¬ isRestartToken text)
    (hw : ¬ selectsWater text) (h3 : ¬ selects3D text) :
    handleMessage now userStates chatID text =
      (userStates, [Effect.send (terminalReply chatID text)]) := by
  have hri := not_restart_inner text hr
  rw [handleMessage_of_state now userStates chatID text state hs hr hw h3]
  obtain ⟨cid, svc, step, data⟩ := state
  rcases ht with ⟨hsvc, hstep⟩ | ⟨hsvc, hstep⟩
  · simp only at hsvc hstep
    subst hsvc hstep
    by_cases hb : TrimSpace text = "" <;>
      simp [continueDialog, continueWaterDialog, hri, hb, hd, terminalReply]
  · simp only at hsvc hstep
    subst hsvc hstep
    by_cases hb : TrimSpace text = "" <;>
      simp [continueDialog, continue3DDialog, hri, hb, hd, terminalReply]

/-- At the confirmation step, any number of texts other than the acknowledgement token,
a restart token or a flow selection leaves the store as it was, one reply per text. -/
theorem runUpdates_terminal_others (userStates : Store) (chatID : Int) (state : UserState)
    (us : List Update) (hs : userStates chatID = some state) (ht : atTerminalStep state)
    (hus : ∀ u ∈ us, u.chatID = chatID ∧ u.text ≠ doneLabel ∧ ¬ isRestartToken u.text ∧
      ¬ selectsWater u.text ∧ ¬ selects3D u.text) :
    runUpdates userStates us =
      (userStates, us.map fun u => Effect.send (terminalReply chatID u.text)) := by
  induction us with
  | nil => simp [runUpdates]
  | cons u us ih =>
    obtain ⟨hc, hd, hr, hw, h3⟩ := hus u (List.mem_cons_self _ _)
    have ih' := ih fun v hv => hus v (List.mem_cons_of_mem _ hv)
    simp only [runUpdates, hc]
    rw [handleMessage_terminal_other u.now userStates chatID u.text state hs ht hd hr hw h3]
    simp [ih']

/-- The acknowledgement token at the confirmation step: the full result. -/
theorem handleMessage_terminal_done (now : String) (userStates : Store) (chatID : Int)
    (state : UserState) (hs : userStates chatID = some state) (ht : atTerminalStep state) :
    (handleMessage now userStates chatID doneLabel).1 = userStates.delete chatID ∧
    persistCalls (handleMessage now userStates chatID doneLabel).2 =
      [(chatID, state.Data, state.ServiceType)] ∧
    (notifyCalls (handleMessage now userStates chatID doneLabel).2).map Prod.snd =
      [state.Data] := by
  rw [handleMessage_of_state now userStates chatID doneLabel state hs (by decide) (by decide)
    (by decide)]
  have hri : ¬ (doneLabel = "/restart" ∨ doneLabel = restartLabel) := by decide
  have hb : TrimSpace doneLabel ≠ "" := by decide
  obtain ⟨cid, svc, step, data⟩ := state
  rcases ht with ⟨hsvc, hstep⟩ | ⟨hsvc, hstep⟩
  · simp only at hsvc hstep
    subst hsvc hstep
    simp [continueDialog, continueWaterDialog, hri, hb, persistCalls, notifyCalls]
  · simp only at hsvc hstep
    subst hsvc hstep
    simp [continueDialog, continue3DDialog, hri, hb, persistCalls, notifyCalls]

/-- C6, as stated, fails: at the confirmation step of the water flow the empty text (which
is not the acknowledgement token, a restart token or a flow selection) is answered by the
blank-input warning, not by the reminder to press the acknowledgement button. -/
theorem terminal_reminder_counterexample :
    atTerminalStep ⟨7, "water", 6, []⟩ ∧ "" ≠ doneLabel ∧ ¬ isRestartToken "" ∧
    ¬ selectsWater "" ∧ ¬ selects3D "" ∧
    (runUpdates (Store.put Store.empty 7 ⟨7, "water", 6, []⟩) [⟨"t", 7, ""⟩]).2 ≠
      [Effect.send ⟨7, confirmReminder, "", Markup.none⟩] ∧
    (runUpdates (Store.put Store.empty 7 ⟨7, "water", 6, []⟩) [⟨"t", 7, ""⟩]).2 =
      [Effect.send ⟨7, blankWarning, "", Markup.none⟩] := by
  refine ⟨by decide, by decide, by decide, by decide, by decide, by decide, by decide⟩

/-- C6, amended: at the confirmation step of either flow with collected data `D`, any
finite sequence of texts from the chat, none of them the acknowledgement token, a restart
token or a flow selection, leaves the store (so the chat's step and data) as it was, with
no persist and no notify call and exactly one message per text: the reminder for a
non-blank text, the blank-input warning for a blank one.  The acknowledgement token sent
afterwards gives exactly one persist call and exactly one notify call in the whole
sequence, both carrying `D`, and removes the state. -/
theorem terminal_step_stable (now : String) (userStates : Store) (chatID : Int)
    (state : UserState) (us : List Update) (hs : userStates chatID = some state)
    (ht : atTerminalStep state)
    (hus : ∀ u ∈ us, u.chatID = chatID ∧ u.text ≠ doneLabel ∧ ¬ isRestartToken u.text ∧
      ¬ selectsWater u.text ∧ ¬ selects3D u.text) :
    (runUpdates userStates us).1 = userStates ∧
    (runUpdates userStates us).1 chatID = some state ∧
    (runUpdates userStates us).2 =
      us.map (fun u => Effect.send (terminalReply chatID u.text)) ∧
    persistCalls (runUpdates userStates us).2 = [] ∧
    notifyCalls (runUpdates userStates us).2 = [] ∧
    persistCalls (runUpdates userStates (us ++ [⟨now, chatID, doneLabel⟩])).2 =
      [(chatID, state.Data, state.ServiceType)] ∧
    (notifyCalls (runUpdates userStates (us ++ [⟨now, chatID, doneLabel⟩])).2).map Prod.snd =
      [state.Data] ∧
    (runUpdates userStates (us ++ [⟨now, chatID, doneLabel⟩])).1 chatID = none := by
  have hrun := runUpdates_terminal_others userStates chatID state us hs ht hus
  obtain ⟨hd1, hd2, hd3⟩ := handleMessage_terminal_done now userStates chatID state hs ht
  have hp := persistCalls_map_send (fun u : Update => terminalReply chatID u.text) us
  have hn := notifyCalls_map_send (fun u : Update => terminalReply chatID u.text) us
  refine ⟨by rw [hrun], by rw [hrun]; exact hs, by rw [hrun], by rw [hrun]; exact hp,
    by rw [hrun]; exact hn, ?_, ?_, ?_⟩
  · rw [runUpdates_append, hrun]
    simp [runUpdates, persistCalls_append, hp, hd2]
  · rw [runUpdates_append, hrun]
    simp only [runUpdates, notifyCalls_append, hn, List.append_nil, List.nil_append]
    exact hd3
  · rw [runUpdates_append, hrun]
    simp [runUpdates, hd1, Store.delete]

/-- Witness of C6 (scenario D): two other texts, one of them blank, then the
acknowledgement token, at the confirmation step of the 3D flow. -/
theorem terminal_step_stable_witness :
    Store.put Store.empty 7 ⟨7, "3d", 4, [("element_name", "a")]⟩ 7 =
      some ⟨7, "3d", 4, [("element_name", "a")]⟩ ∧
    atTerminalStep ⟨7, "3d", 4, [("element_name", "a")]⟩ ∧
    persistCalls (runUpdates (Store.put Store.empty 7 ⟨7, "3d", 4, [("element_name", "a")]⟩)
      ([⟨"t1", 7, "ok"⟩, ⟨"t2", 7, " "⟩] ++ [⟨"t3", 7, doneLabel⟩])).2 =
      [(7, [("element_name", "a")], "3d")] :=
  ⟨rfl, by decide,
    (terminal_step_stable "t3" (Store.put Store.empty 7 ⟨7, "3d", 4, [("element_name", "a")]⟩)
      7 ⟨7, "3d", 4, [("element_name", "a")]⟩ [⟨"t1", 7, "ok"⟩, ⟨"t2", 7, " "⟩] rfl
      (by decide) (by decide)).2.2.2.2.2.1⟩

/-- Writing a key that is absent appends one entry. -/
theorem set_of_not_mem (data : Data) (key value : String) (h : key ∉ Data.keys data) :
    Data.set data key value = data ++ [(key, value)] := by
  induction data with
  | nil => simp [Data.set]
  | cons kv rest ih =>
    obtain ⟨k, v⟩ := kv
    have hk : ¬ k = key := by
      intro hk
      exact h (by simp [Data.keys, hk])
    have hrest : key ∉ Data.keys rest := by
      intro hmem
      exact h (by simp only [Data.keys, List.map_cons, List.mem_cons]; exact Or.inr hmem)
    simp [Data.set, hk, ih hrest]

/-- Storing the answer of the next step keeps the data invariant: the keys grow by the
field key of that step and no value is blank. -/
theorem data_inv_set (data : Data) (before : List String) (key text : String)
    (hkeys : Data.keys data = before) (hnew : key ∉ before)
    (hvals : ∀ kv ∈ data, TrimSpace kv.2 ≠ "") (hb : TrimSpace text ≠ "") :
    Data.keys (Data.set data key text) = before ++ [key] ∧
    ∀ kv ∈ Data.set data key text, TrimSpace kv.2 ≠ "" := by
  rw [set_of_not_mem data key text (by rw [hkeys]; exact hnew)]
  constructor
  · simp [Data.keys, ← hkeys]
  · intro kv hkv
    rcases List.mem_append.mp hkv with h | h
    · exact hvals kv h
    · simp only [List.mem_singleton] at h
      subst h
      exact hb

/-- The empty store satisfies the invariant. -/
theorem storeInv_empty : StoreInv Store.empty := by
  intro c st h
  simp [Store.empty] at h

/-- Deleting an entry keeps the invariant. -/
theorem storeInv_delete (userStates : Store) (chatID : Int) (h : StoreInv userStates) :
    StoreInv (userStates.delete chatID) := by
  intro c st hc
  unfold Store.delete at hc
  by_cases hk : c = chatID
  · simp [hk] at hc
  · simp only [hk, if_false] at hc
    exact h c st hc

/-- Storing a state that satisfies the invariant keeps the invariant. -/
theorem storeInv_put (userStates : Store) (chatID : Int) (state : UserState)
    (h : StoreInv userStates) (hst : StateInv chatID state) :
    StoreInv (userStates.put chatID state) := by
  intro c st hc
  unfold Store.put at hc
  by_cases hk : c = chatID
  · simp only [hk, if_true, Option.some.injEq] at hc
    subst hc
    rw [hk]
    exact hst
  · simp only [hk, if_false] at hc
    exact h c st hc

/-- What `continueDialog` can do to the store of a state that satisfies the invariant:
leave it, delete the entry, or replace the entry by a state that satisfies the invariant. -/
theorem continueDialog_store (now : String) (userStates : Store) (chatID : Int)
    (text : String) (state : UserState) (hst : StateInv chatID state) :
    (continueDialog now userStates chatID text state).1 = userStates ∨
    (continueDialog now userStates chatID text state).1 = userStates.delete chatID ∨
    ∃ state', StateInv chatID state' ∧
      (continueDialog now userStates chatID text state).1 = userStates.put chatID state' := by
  obtain ⟨cid, svc, step, data⟩ := state
  obtain ⟨hcid, hflow, hvals⟩ := hst
  simp only at hcid hflow hvals
  by_cases hri : text = "/restart" ∨ text = restartLabel
  · right; left
    simp [continueDialog, continueWaterDialog, continue3DDialog, hri]
  by_cases hb : TrimSpace text = ""
  · left
    simp [continueDialog, continueWaterDialog, continue3DDialog, hri, hb]
  rcases hflow with ⟨hsvc, h1, h6, hkeys⟩ | ⟨hsvc, h1, h4, hkeys⟩
  · subst hsvc
    have hcases : step = 1 ∨ step = 2 ∨ step = 3 ∨ step = 4 ∨ step = 5 ∨ step = 6 := by omega
    rcases hcases with h | h | h | h | h | h <;> subst h
    · right; right
      obtain ⟨hk, hv⟩ := data_inv_set data _ "system_type" text hkeys (by decide) hvals hb
      exact ⟨⟨cid, "water", 2, Data.set data "system_type" text⟩,
        ⟨hcid, Or.inl ⟨rfl, by simp, by simp, hk.trans (by rfl)⟩, hv⟩,
        by simp [continueDialog, continueWaterDialog, hri, hb]⟩
    · right; right
      obtain ⟨hk, hv⟩ := data_inv_set data _ "object_type" text hkeys (by decide) hvals hb
      exact ⟨⟨cid, "water", 3, Data.set data "object_type" text⟩,
        ⟨hcid, Or.inl ⟨rfl, by simp, by simp, hk.trans (by rfl)⟩, hv⟩,
        by simp [continueDialog, continueWaterDialog, hri, hb]⟩
    · right; right
      obtain ⟨hk, hv⟩ := data_inv_set data _ "object_details" text hkeys (by decide) hvals hb
      exact ⟨⟨cid, "water", 4, Data.set data "object_details" text⟩,
        ⟨hcid, Or.inl ⟨rfl, by simp, by simp, hk.trans (by rfl)⟩, hv⟩,
        by simp [continueDialog, continueWaterDialog, hri, hb]⟩
    · right; right
      obtain ⟨hk, hv⟩ := data_inv_set data _ "additional_info" text hkeys (by decide) hvals hb
      exact ⟨⟨cid, "water", 5, Data.set data "additional_info" text⟩,
        ⟨hcid, Or.inl ⟨rfl, by simp, by simp, hk.trans (by rfl)⟩, hv⟩,
        by simp [continueDialog, continueWaterDialog, hri, hb]⟩
    · right; right
      obtain ⟨hk, hv⟩ := data_inv_set data _ "contacts" text hkeys (by decide) hvals hb
      exact ⟨⟨cid, "water", 6, Data.set data "contacts" text⟩,
        ⟨hcid, Or.inl ⟨rfl, by simp, by simp, hk.trans (by rfl)⟩, hv⟩,
        by simp [continueDialog, continueWaterDialog, hri, hb]⟩
    · by_cases hd : text = doneLabel
      · right; left
        subst hd
        simp [continueDialog, continueWaterDialog, hri, hb]
      · left
        simp [continueDialog, continueWaterDialog, hri, hb, hd]
  · subst hsvc
    have hcases : step = 1 ∨ step = 2 ∨ step = 3 ∨ step = 4 := by omega
    rcases hcases with h | h | h | h <;> subst h
    · right; right
      obtain ⟨hk, hv⟩ := data_inv_set data _ "element_name" text hkeys (by decide) hvals hb
      exact ⟨⟨cid, "3d", 2, Data.set data "element_name" text⟩,
        ⟨hcid, Or.inr ⟨rfl, by simp, by simp, hk.trans (by rfl)⟩, hv⟩,
        by simp [continueDialog, continue3DDialog, hri, hb]⟩
    · right; right
      obtain ⟨hk, hv⟩ := data_inv_set data _ "requirements" text hkeys (by decide) hvals hb
      exact ⟨⟨cid, "3d", 3, Data.set data "requirements" text⟩,
        ⟨hcid, Or.inr ⟨rfl, by simp, by simp, hk.trans (by rfl)⟩, hv⟩,
        by simp [continueDialog, continue3DDialog, hri, hb]⟩
    · right; right
      obtain ⟨hk, hv⟩ := data_inv_set data _ "contacts" text hkeys (by decide) hvals hb
      exact ⟨⟨cid, "3d", 4, Data.set data "contacts" text⟩,
        ⟨hcid, Or.inr ⟨rfl, by simp, by simp, hk.trans (by rfl)⟩, hv⟩,
        by simp [continueDialog, continue3DDialog, hri, hb]⟩
    · by_cases hd : text = doneLabel
      · right; left
        subst hd
        simp [continueDialog, continue3DDialog, hri, hb]
      · left
        simp [continueDialog, continue3DDialog, hri, hb, hd]

/-- A restart token: the full result. -/
theorem handleMessage_restart (now : String) (userStates : Store) (chatID : Int)
    (text : String) (hr : isRestartToken text) :
    handleMessage now userStates chatID text =
      (userStates.delete chatID, sendStartMessage chatID) := by
  have hr' : text = "/start" ∨ text = "/restart" ∨ text = restartLabel := hr
  simp [handleMessage, hr']

/-- A water selection that is not a restart token: the full result. -/
theorem handleMessage_selectsWater (now : String) (userStates : Store) (chatID : Int)
    (text : String) (hr : ¬ isRestartToken text) (hw : selectsWater text) :
    handleMessage now userStates chatID text = startWaterConsultation userStates chatID := by
  have hr' : ¬ (text = "/start" ∨ text = "/restart" ∨ text = restartLabel) := hr
  have hw' : Contains text "Консультация" = true ∧ Contains text "водоснабжению" = true := hw
  unfold handleMessage
  rw [if_neg hr']
  simp [hw'.1, hw'.2]

/-- A 3D selection that is neither a restart token nor a water selection: the full result. -/
theorem handleMessage_selects3D (now : String) (userStates : Store) (chatID : Int)
    (text : String) (hr : ¬ isRestartToken text) (hw : ¬ selectsWater text)
    (h3 : selects3D text) :
    handleMessage now userStates chatID text = start3DModeling userStates chatID := by
  have hr' : ¬ (text = "/start" ∨ text = "/restart" ∨ text = restartLabel) := hr
  have hw' : ¬ (Contains text "Консультация" = true ∧ Contains text "водоснабжению" = true) :=
    hw
  have h3' : Contains text "Разработка" = true ∧ Contains text "3D" = true := h3
  unfold handleMessage
  rw [if_neg hr']
  simp only [Bool.and_eq_true, if_neg hw']
  simp [h3'.1, h3'.2]

/-- One call of `handleMessage` keeps the store invariant. -/
theorem storeInv_handleMessage (now : String) (userStates : Store) (chatID : Int)
    (text : String) (h : StoreInv userStates) :
    StoreInv (handleMessage now userStates chatID text).1 := by
  by_cases hr : isRestartToken text
  · rw [handleMessage_restart now userStates chatID text hr]
    exact storeInv_delete _ _ h
  by_cases hw : selectsWater text
  · rw [handleMessage_selectsWater now userStates chatID text hr hw]
    exact storeInv_put _ _ _ h ⟨rfl, Or.inl ⟨rfl, by simp, by simp, rfl⟩, by simp⟩
  by_cases h3 : selects3D text
  · rw [handleMessage_selects3D now userStates chatID text hr hw h3]
    exact storeInv_put _ _ _ h ⟨rfl, Or.inr ⟨rfl, by simp, by simp, rfl⟩, by simp⟩
  cases hs : userStates chatID with
  | none =>
    rw [handleMessage_of_no_state now userStates chatID text hs hr hw h3]
    exact h
  | some state =>
    rw [handleMessage_of_state now userStates chatID text state hs hr hw h3]
    rcases continueDialog_store now userStates chatID text state (h chatID state hs) with
      hc | hc | ⟨state', hst', hc⟩
    · rw [hc]
      exact h
    · rw [hc]
      exact storeInv_delete _ _ h
    · rw [hc]
      exact storeInv_put _ _ _ h hst'

/-- Any sequence of updates keeps the store invariant. -/
theorem storeInv_runUpdates (userStates : Store) (us : List Update) (h : StoreInv userStates) :
    StoreInv (runUpdates userStates us).1 := by
  induction us generalizing userStates with
  | nil => exact h
  | cons u us ih =>
    simp only [runUpdates]
    exact ih _ (storeInv_handleMessage u.now userStates u.chatID u.text h)

/-- A key among the first `n` field keys is the field key of a step between 1 and `n`. -/
theorem fieldKey_of_mem_take (fields : List String) (n : Nat) (key : String)
    (h : key ∈ fields.take n) :
    ∃ j : Int, 1 ≤ j ∧ j ≤ n ∧ key = fieldKey fields j := by
  induction fields generalizing n with
  | nil => simp at h
  | cons f fs ih =>
    cases n with
    | zero => simp at h
    | succ n =>
      simp only [List.take_succ_cons, List.mem_cons] at h
      rcases h with h | h
      · exact ⟨1, by omega, by omega, by simp [fieldKey, h]⟩
      · obtain ⟨j, hj1, hjn, hkey⟩ := ih n h
        refine ⟨j + 1, by omega, by push_cast; omega, ?_⟩
        rw [hkey]
        unfold fieldKey
        have e1 : (j + 1 - 1).toNat = (j - 1).toNat + 1 := by omega
        rw [e1]
        simp

/-- C8: in every store reached from the empty store by any sequence of `handleMessage`
calls, every stored state sits under its own chat id, is a water state with step 1..6 or
a 3D state with step 1..4, and each key of its data is the field key of a step strictly
before its current step. -/
theorem reachable_state_invariant (us : List Update) (chatID : Int) (state : UserState)
    (h : (runUpdates Store.empty us).1 chatID = some state) :
    state.ChatID = chatID ∧
    ((state.ServiceType = "water" ∧ 1 ≤ state.Step ∧ state.Step ≤ 6 ∧
        ∀ key ∈ Data.keys state.Data,
          ∃ j : Int, 1 ≤ j ∧ j < state.Step ∧ key = fieldKey waterFields j) ∨
     (state.ServiceType = "3d" ∧ 1 ≤ state.Step ∧ state.Step ≤ 4 ∧
        ∀ key ∈ Data.keys state.Data,
          ∃ j : Int, 1 ≤ j ∧ j < state.Step ∧ key = fieldKey model3DFields j)) := by
  obtain ⟨hcid, hflow, _⟩ := storeInv_runUpdates Store.empty us storeInv_empty chatID state h
  refine ⟨hcid, ?_⟩
  rcases hflow with ⟨hsvc, h1, h6, hkeys⟩ | ⟨hsvc, h1, h4, hkeys⟩
  · left
    refine ⟨hsvc, h1, h6, fun key hkey => ?_⟩
    rw [hkeys] at hkey
    obtain ⟨j, hj1, hjn, hj⟩ := fieldKey_of_mem_take _ _ _ hkey
    exact ⟨j, hj1, by omega, hj⟩
  · right
    refine ⟨hsvc, h1, h4, fun key hkey => ?_⟩
    rw [hkeys] at hkey
    obtain ⟨j, hj1, hjn, hj⟩ := fieldKey_of_mem_take _ _ _ hkey
    exact ⟨j, hj1, by omega, hj⟩

/-- Witness of C8: the store after a water selection and one answer from chat 7. -/
theorem reachable_state_invariant_witness :
    (runUpdates Store.empty [⟨"t1", 7, waterLabel⟩, ⟨"t2", 7, "ХВС"⟩]).1 7 =
      some ⟨7, "water", 2, [("system_type", "ХВС")]⟩ ∧
    ∀ key ∈ Data.keys [("system_type", "ХВС")],
      ∃ j : Int, 1 ≤ j ∧ j < 2 ∧ key = fieldKey waterFields j :=
  ⟨by decide, by
    have h := reachable_state_invariant [⟨"t1", 7, waterLabel⟩, ⟨"t2", 7, "ХВС"⟩] 7
      ⟨7, "water", 2, [("system_type", "ХВС")]⟩ (by decide)
    rcases h.2 with hw | h3
    · exact hw.2.2.2
    · exact absurd h3.1 (by decide)⟩

/-- The only persist call of `continueDialog` on a state that satisfies the invariant is
the one made for the acknowledgement token at the confirmation step. -/
theorem continueDialog_persist (now : String) (userStates : Store) (chatID : Int)
    (text : String) (state : UserState) (hst : StateInv chatID state)
    (call : Int × Data × String)
    (h : call ∈ persistCalls (continueDialog now userStates chatID text state).2) :
    text = doneLabel ∧ atTerminalStep state ∧
    call = (chatID, state.Data, state.ServiceType) := by
  obtain ⟨cid, svc, step, data⟩ := state
  obtain ⟨hcid, hflow, hvals⟩ := hst
  simp only at hcid hflow hvals
  by_cases hri : text = "/restart" ∨ text = restartLabel
  · simp [continueDialog, continueWaterDialog, continue3DDialog, hri, sendStartMessage,
      persistCalls] at h
  by_cases hb : TrimSpace text = ""
  · simp [continueDialog, continueWaterDialog, continue3DDialog, hri, hb, persistCalls] at h
  rcases hflow with ⟨hsvc, h1, h6, hkeys⟩ | ⟨hsvc, h1, h4, hkeys⟩
  · subst hsvc
    have hcases : step = 1 ∨ step = 2 ∨ step = 3 ∨ step = 4 ∨ step = 5 ∨ step = 6 := by omega
    rcases hcases with hk | hk | hk | hk | hk | hk <;> subst hk
    · simp [continueDialog, continueWaterDialog, hri, hb, persistCalls] at h
    · simp [continueDialog, continueWaterDialog, hri, hb, persistCalls] at h
    · simp [continueDialog, continueWaterDialog, hri, hb, persistCalls] at h
    · simp [continueDialog, continueWaterDialog, hri, hb, persistCalls] at h
    · simp [continueDialog, continueWaterDialog, hri, hb, persistCalls] at h
    · by_cases hd : text = doneLabel
      · subst hd
        simp [continueDialog, continueWaterDialog, hri, hb, persistCalls] at h
        exact ⟨rfl, Or.inl ⟨rfl, rfl⟩, h⟩
      · simp [continueDialog, continueWaterDialog, hri, hb, hd, persistCalls] at h
  · subst hsvc
    have hcases : step = 1 ∨ step = 2 ∨ step = 3 ∨ step = 4 := by omega
    rcases hcases with hk | hk | hk | hk <;> subst hk
    · simp [continueDialog, continue3DDialog, hri, hb, persistCalls] at h
    · simp [continueDialog, continue3DDialog, hri, hb, persistCalls] at h
    · simp [continueDialog, continue3DDialog, hri, hb, persistCalls] at h
    · by_cases hd : text = doneLabel
      · subst hd
        simp [continueDialog, continue3DDialog, hri, hb, persistCalls] at h
        exact ⟨rfl, Or.inr ⟨rfl, rfl⟩, h⟩
      · simp [continueDialog, continue3DDialog, hri, hb, hd, persistCalls] at h

/-- C9: in every execution from the empty store, whenever a `handleMessage` call makes a
persist call, the triggering text is the acknowledgement token, the chat was at the
confirmation step and it is that chat's data and flow that are handed over; the data has
exactly the field keys of the flow's answer steps, each once (water: system_type,
object_type, object_details, additional_info, contacts; 3D: element_name, requirements,
contacts), and no value is blank after trimming. -/
theorem submitted_record_complete (us : List Update) (u : Update) (chatID : Int)
    (data : Data) (serviceType : String)
    (h : (chatID, data, serviceType) ∈
      persistCalls (handleMessage u.now (runUpdates Store.empty us).1 u.chatID u.text).2) :
    u.text = doneLabel ∧ chatID = u.chatID ∧
    (∃ state, (runUpdates Store.empty us).1 u.chatID = some state ∧ atTerminalStep state ∧
      state.Data = data ∧ state.ServiceType = serviceType) ∧
    ((serviceType = "water" ∧ Data.keys data = waterFields) ∨
     (serviceType = "3d" ∧ Data.keys data = model3DFields)) ∧
    (Data.keys data).Nodup ∧
    ∀ kv ∈ data, TrimSpace kv.2 ≠ "" := by
  have hinv := storeInv_runUpdates Store.empty us storeInv_empty
  generalize (runUpdates Store.empty us).1 = userStates at h hinv
  by_cases hr : isRestartToken u.text
  · rw [handleMessage_restart u.now userStates u.chatID u.text hr] at h
    simp [sendStartMessage, persistCalls] at h
  by_cases hw : selectsWater u.text
  · rw [handleMessage_selectsWater u.now userStates u.chatID u.text hr hw] at h
    simp [startWaterConsultation, persistCalls] at h
  by_cases h3 : selects3D u.text
  · rw [handleMessage_selects3D u.now userStates u.chatID u.text hr hw h3] at h
    simp [start3DModeling, persistCalls] at h
  cases hs : userStates u.chatID with
  | none =>
    rw [handleMessage_of_no_state u.now userStates u.chatID u.text hs hr hw h3] at h
    simp [sendStartMessage, persistCalls] at h
  | some state =>
    rw [handleMessage_of_state u.now userStates u.chatID u.text state hs hr hw h3] at h
    have hst := hinv u.chatID state hs
    obtain ⟨hd, ht, hcall⟩ := continueDialog_persist u.now userStates u.chatID u.text state
      hst _ h
    simp only [Prod.mk.injEq] at hcall
    obtain ⟨hc, hdata, hsvc⟩ := hcall
    obtain ⟨_, hflow, hvals⟩ := hst
    subst hdata hsvc
    have hkeys : (state.ServiceType = "water" ∧ Data.keys state.Data = waterFields) ∨
        (state.ServiceType = "3d" ∧ Data.keys state.Data = model3DFields) := by
      rcases ht with ⟨tsvc, tstep⟩ | ⟨tsvc, tstep⟩
      · rcases hflow with ⟨_, _, _, hk⟩ | ⟨fsvc, _, _, _⟩
        · rw [tstep] at hk
          exact Or.inl ⟨tsvc, hk.trans (by rfl)⟩
        · rw [tsvc] at fsvc
          exact absurd fsvc (by decide)
      · rcases hflow with ⟨fsvc, _, _, _⟩ | ⟨_, _, _, hk⟩
        · rw [tsvc] at fsvc
          exact absurd fsvc (by decide)
        · rw [tstep] at hk
          exact Or.inr ⟨tsvc, hk.trans (by rfl)⟩
    refine ⟨hd, hc, ⟨state, rfl, ht, rfl, rfl⟩, hkeys, ?_, hvals⟩
    rcases hkeys with ⟨_, hk⟩ | ⟨_, hk⟩ <;> rw [hk] <;> decide

/-- Witness of C9: a complete 3D dialog of chat 7, then the acknowledgement token. -/
theorem submitted_record_complete_witness :
    (7, [("element_name", "a"), ("requirements", "b"), ("contacts", "c")], "3d") ∈
      persistCalls (handleMessage "t5" (runUpdates Store.empty [⟨"t1", 7, model3DLabel⟩,
        ⟨"t2", 7, "a"⟩, ⟨"t3", 7, "b"⟩, ⟨"t4", 7, "c"⟩]).1 7 doneLabel).2 ∧
    Data.keys [("element_name", "a"), ("requirements", "b"), ("contacts", "c")] =
      model3DFields :=
  ⟨by decide, by
    have h := submitted_record_complete [⟨"t1", 7, model3DLabel⟩, ⟨"t2", 7, "a"⟩,
      ⟨"t3", 7, "b"⟩, ⟨"t4", 7, "c"⟩] ⟨"t5", 7, doneLabel⟩ 7
      [("element_name", "a"), ("requirements", "b"), ("contacts", "c")] "3d" (by decide)
    rcases h.2.2.2.1 with hw | h3
    · exact absurd hw.1 (by decide)
    · exact h3.2⟩

/-- An answer at one of the steps 1..5 of the water flow: the full result. -/
theorem handleMessage_water_answer (now : String) (userStates : Store) (chatID : Int)
    (text : String) (cid : Int) (data : Data) (step : Int)
    (hs : userStates chatID = some ⟨cid, "water", step, data⟩) (h1 : 1 ≤ step)
    (h5 : step ≤ 5) (ha : isAnswer text) :
    handleMessage now userStates chatID text =
      (userStates.put chatID
        ⟨cid, "water", step + 1, Data.set data (fieldKey waterFields step) text⟩,
       [Effect.send (waterPrompt chatID (step + 1) text)]) := by
  obtain ⟨hb, hr, hw, h3⟩ := ha
  have hri := not_restart_inner text hr
  have hlen := utf8ByteSize_pos_of_not_blank text hb
  rw [handleMessage_of_state now userStates chatID text _ hs hr hw h3]
  have hcases : step = 1 ∨ step = 2 ∨ step = 3 ∨ step = 4 ∨ step = 5 := by omega
  rcases hcases with h | h | h | h | h <;> subst h <;>
    simp [continueDialog, continueWaterDialog, hri, hb, fieldKey, waterFields, waterPrompt,
      hlen]

/-- C10 (scenario A): from any store, for any chat and any five answers (non-blank, not a
restart token, not a flow selection), the messages `/start`, the water button, the five
answers and the acknowledgement token leave the chat without state after `/start`, then
in water states at steps 1, 2, 3, 4, 5, 6 holding exactly the answers given so far, and
finally without state; over the whole run persist is called exactly once, with the chat
id, the flow "water" and exactly the five fields system_type, object_type, object_details,
additional_info, contacts set to the five answers. -/
theorem scenario_water_end_to_end (clock : Nat → String) (userStates : Store) (chatID : Int)
    (a1 a2 a3 a4 a5 : String) (h1 : isAnswer a1) (h2 : isAnswer a2) (h3 : isAnswer a3)
    (h4 : isAnswer a4) (h5 : isAnswer a5) :
    (runUpdates userStates ((scenarioA clock chatID a1 a2 a3 a4 a5).take 1)).1 chatID = none ∧
    (runUpdates userStates ((scenarioA clock chatID a1 a2 a3 a4 a5).take 2)).1 chatID =
      some ⟨chatID, "water", 1, []⟩ ∧
    (runUpdates userStates ((scenarioA clock chatID a1 a2 a3 a4 a5).take 3)).1 chatID =
      some ⟨chatID, "water", 2, [("system_type", a1)]⟩ ∧
    (runUpdates userStates ((scenarioA clock chatID a1 a2 a3 a4 a5).take 4)).1 chatID =
      some ⟨chatID, "water", 3, [("system_type", a1), ("object_type", a2)]⟩ ∧
    (runUpdates userStates ((scenarioA clock chatID a1 a2 a3 a4 a5).take 5)).1 chatID =
      some ⟨chatID, "water", 4,
        [("system_type", a1), ("object_type", a2), ("object_details", a3)]⟩ ∧
    (runUpdates userStates ((scenarioA clock chatID a1 a2 a3 a4 a5).take 6)).1 chatID =
      some ⟨chatID, "water", 5,
        [("system_type", a1), ("object_type", a2), ("object_details", a3),
         ("additional_info", a4)]⟩ ∧
    (runUpdates userStates ((scenarioA clock chatID a1 a2 a3 a4 a5).take 7)).1 chatID =
      some ⟨chatID, "water", 6,
        [("system_type", a1), ("object_type", a2), ("object_details", a3),
         ("additional_info", a4), ("contacts", a5)]⟩ ∧
    (runUpdates userStates (scenarioA clock chatID a1 a2 a3 a4 a5)).1 chatID = none ∧
    persistCalls (runUpdates userStates (scenarioA clock chatID a1 a2 a3 a4 a5)).2 =
      [(chatID,
        [("system_type", a1), ("object_type", a2), ("object_details", a3),
         ("additional_info", a4), ("contacts", a5)], "water")] := by
  obtain ⟨s1, hs1⟩ : ∃ s : Store, s = userStates.delete chatID := ⟨_, rfl⟩
  obtain ⟨s2, hs2⟩ : ∃ s : Store, s = s1.put chatID ⟨chatID, "water", 1, []⟩ := ⟨_, rfl⟩
  obtain ⟨s3, hs3⟩ : ∃ s : Store, s = s2.put chatID
    ⟨chatID, "water", 2, [("system_type", a1)]⟩ := ⟨_, rfl⟩
  obtain ⟨s4, hs4⟩ : ∃ s : Store, s = s3.put chatID
    ⟨chatID, "water", 3, [("system_type", a1), ("object_type", a2)]⟩ := ⟨_, rfl⟩
  obtain ⟨s5, hs5⟩ : ∃ s : Store, s = s4.put chatID
    ⟨chatID, "water", 4, [("system_type", a1), ("object_type", a2), ("object_details", a3)]⟩ :=
    ⟨_, rfl⟩
  obtain ⟨s6, hs6⟩ : ∃ s : Store, s = s5.put chatID
    ⟨chatID, "water", 5, [("system_type", a1), ("object_type", a2), ("object_details", a3),
      ("additional_info", a4)]⟩ := ⟨_, rfl⟩
  obtain ⟨s7, hs7⟩ : ∃ s : Store, s = s6.put chatID
    ⟨chatID, "water", 6, [("system_type", a1), ("object_type", a2), ("object_details", a3),
      ("additional_info", a4), ("contacts", a5)]⟩ := ⟨_, rfl⟩
  have p1 : s1 chatID = none := by simp [hs1, Store.delete]
  have p2 : s2 chatID = some ⟨chatID, "water", 1, []⟩ := by simp [hs2, Store.put]
  have p3 : s3 chatID = some ⟨chatID, "water", 2, [("system_type", a1)]⟩ := by
    simp [hs3, Store.put]
  have p4 : s4 chatID = some ⟨chatID, "water", 3,
      [("system_type", a1), ("object_type", a2)]⟩ := by simp [hs4, Store.put]
  have p5 : s5 chatID = some ⟨chatID, "water", 4,
      [("system_type", a1), ("object_type", a2), ("object_details", a3)]⟩ := by
    simp [hs5, Store.put]
  have p6 : s6 chatID = some ⟨chatID, "water", 5,
      [("system_type", a1), ("object_type", a2), ("object_details", a3),
       ("additional_info", a4)]⟩ := by simp [hs6, Store.put]
  have p7 : s7 chatID = some ⟨chatID, "water", 6,
      [("system_type", a1), ("object_type", a2), ("object_details", a3),
       ("additional_info", a4), ("contacts", a5)]⟩ := by simp [hs7, Store.put]
  have e1 : handleMessage (clock 0) userStates chatID "/start" =
      (s1, sendStartMessage chatID) := by
    rw [hs1]
    exact handleMessage_restart _ _ _ _ (by decide)
  have e2 : handleMessage (clock 1) s1 chatID waterLabel =
      (s2, [Effect.send (waterPrompt chatID 1 "")]) := by
    rw [hs2]
    exact handleMessage_selectsWater _ _ _ _ (by decide) (by decide)
  have e3 : handleMessage (clock 2) s2 chatID a1 =
      (s3, [Effect.send (waterPrompt chatID 2 a1)]) := by
    rw [hs3]
    exact handleMessage_water_answer _ _ _ _ _ _ 1 p2 (by decide) (by decide) h1
  have e4 : handleMessage (clock 3) s3 chatID a2 =
      (s4, [Effect.send (waterPrompt chatID 3 a2)]) := by
    rw [hs4]
    exact handleMessage_water_answer _ _ _ _ _ _ 2 p3 (by decide) (by decide) h2
  have e5 : handleMessage (clock 4) s4 chatID a3 =
      (s5, [Effect.send (waterPrompt chatID 4 a3)]) := by
    rw [hs5]
    exact handleMessage_water_answer _ _ _ _ _ _ 3 p4 (by decide) (by decide) h3
  have e6 : handleMessage (clock 5) s5 chatID a4 =
      (s6, [Effect.send (waterPrompt chatID 5 a4)]) := by
    rw [hs6]
    exact handleMessage_water_answer _ _ _ _ _ _ 4 p5 (by decide) (by decide) h4
  have e7 : handleMessage (clock 6) s6 chatID a5 =
      (s7, [Effect.send (waterPrompt chatID 6 a5)]) := by
    rw [hs7]
    exact handleMessage_water_answer _ _ _ _ _ _ 5 p6 (by decide) (by decide) h5
  obtain ⟨d1, d2, _⟩ := handleMessage_terminal_done (clock 7) s7 chatID _ p7
    (Or.inl ⟨rfl, rfl⟩)
  have p8 : (handleMessage (clock 7) s7 chatID doneLabel).1 chatID = none := by
    rw [d1]
    simp [Store.delete]
  simp only [scenarioA, List.take, runUpdates, e1, e2, e3, e4, e5, e6, e7]
  refine ⟨p1, p2, p3, p4, p5, p6, p7, p8, ?_⟩
  simp [persistCalls_append, persistCalls, sendStartMessage, d2]

/-- Witness of C10: scenario A with concrete answers, started from the empty store. -/
theorem scenario_water_end_to_end_witness :
    isAnswer "ХВС" ∧ isAnswer "школа" ∧ isAnswer "Москва" ∧ isAnswer "да" ∧
    isAnswer "a@b.ru" ∧
    persistCalls (runUpdates Store.empty
      (scenarioA (fun _ => "t") 7 "ХВС" "школа" "Москва" "да" "a@b.ru")).2 =
      [(7, [("system_type", "ХВС"), ("object_type", "школа"), ("object_details", "Москва"),
         ("additional_info", "да"), ("contacts", "a@b.ru")], "water")] :=
  ⟨by decide, by decide, by decide, by decide, by decide,
    (scenario_water_end_to_end (fun _ => "t") Store.empty 7 "ХВС" "школа" "Москва" "да"
      "a@b.ru" (by decide) (by decide) (by decide) (by decide) (by decide)).2.2.2.2.2.2.2.2⟩

/-- The six ways `continueWaterDialog` can go, for any state: restart, blank text, an
answer at steps 1..5, the acknowledgement at step 6, another text at step 6, and a step
outside 1..6 (the switch has no default case). -/
theorem continueWaterDialog_cases (now : String) (chatID : Int) (text : String)
    (state : UserState) :
    ((text = "/restart" ∨ text = restartLabel) ∧
      ∀ userStates : Store, continueWaterDialog now userStates chatID text state =
        (userStates.delete chatID, sendStartMessage chatID)) ∨
    (¬ (text = "/restart" ∨ text = restartLabel) ∧ TrimSpace text = "" ∧
      ∀ userStates : Store, continueWaterDialog now userStates chatID text state =
        (userStates, [Effect.send ⟨chatID, blankWarning, "", Markup.none⟩])) ∨
    (¬ (text = "/restart" ∨ text = restartLabel) ∧ TrimSpace text ≠ "" ∧
      1 ≤ state.Step ∧ state.Step ≤ 5 ∧
      ∀ userStates : Store, continueWaterDialog now userStates chatID text state =
        (userStates.put chatID { state with
            Step := state.Step + 1,
            Data := Data.set state.Data (fieldKey waterFields state.Step) text },
         [Effect.send (waterPrompt chatID (state.Step + 1) text)])) ∨
    (¬ (text = "/restart" ∨ text = restartLabel) ∧ TrimSpace text ≠ "" ∧
      state.Step = 6 ∧ text = doneLabel ∧
      ∀ userStates : Store, continueWaterDialog now userStates chatID text state =
        (userStates.delete chatID,
         [Effect.saveApplicationToFile chatID state.Data "water",
          Effect.send ⟨chatID, waterSummary state.Data now, "Markdown", Markup.remove true⟩,
          Effect.sendAdminNotification waterAdminTitle state.Data])) ∨
    (¬ (text = "/restart" ∨ text = restartLabel) ∧ TrimSpace text ≠ "" ∧
      state.Step = 6 ∧ text ≠ doneLabel ∧
      ∀ userStates : Store, continueWaterDialog now userStates chatID text state =
        (userStates, [Effect.send ⟨chatID, confirmReminder, "", Markup.none⟩])) ∨
    (¬ (text = "/restart" ∨ text = restartLabel) ∧ TrimSpace text ≠ "" ∧
      (state.Step < 1 ∨ 6 < state.Step) ∧
      ∀ userStates : Store, continueWaterDialog now userStates chatID text state = (userStates, [])) := by
  obtain ⟨cid, svc, step, data⟩ := state
  by_cases hri : text = "/restart" ∨ text = restartLabel
  · exact Or.inl ⟨hri, fun userStates => by simp [continueWaterDialog, hri]⟩
  by_cases hb : TrimSpace text = ""
  · exact Or.inr (Or.inl ⟨hri, hb, fun userStates => by simp [continueWaterDialog, hri, hb]⟩)
  have hlen := utf8ByteSize_pos_of_not_blank text hb
  by_cases hrange : 1 ≤ step ∧ step ≤ 5
  · refine Or.inr (Or.inr (Or.inl ⟨hri, hb, hrange.1, hrange.2, fun userStates => ?_⟩))
    have hcases : step = 1 ∨ step = 2 ∨ step = 3 ∨ step = 4 ∨ step = 5 := by omega
    rcases hcases with h | h | h | h | h <;> subst h <;>
      simp [continueWaterDialog, hri, hb, fieldKey, waterFields, waterPrompt, hlen]
  by_cases h6 : step = 6
  · subst h6
    by_cases hd : text = doneLabel
    · subst hd
      exact Or.inr (Or.inr (Or.inr (Or.inl ⟨hri, hb, rfl, rfl,
        fun userStates => by simp [continueWaterDialog, hri, hb]⟩)))
    · exact Or.inr (Or.inr (Or.inr (Or.inr (Or.inl ⟨hri, hb, rfl, hd,
        fun userStates => by simp [continueWaterDialog, hri, hb, hd]⟩))))
  · have n1 : ¬ step = 1 := by omega
    have n2 : ¬ step = 2 := by omega
    have n3 : ¬ step = 3 := by omega
    have n4 : ¬ step = 4 := by omega
    have n5 : ¬ step = 5 := by omega
    exact Or.inr (Or.inr (Or.inr (Or.inr (Or.inr ⟨hri, hb, by simp only; omega,
      fun userStates => by simp [continueWaterDialog, hri, hb, n1, n2, n3, n4, n5, h6]⟩))))

/-- The six ways `continue3DDialog` can go, for any state: restart, blank text, an answer
at steps 1..3, the acknowledgement at step 4, another text at step 4, and a step outside
1..4 (the switch has no default case). -/
theorem continue3DDialog_cases (now : String) (chatID : Int) (text : String)
    (state : UserState) :
    ((text = "/restart" ∨ text = restartLabel) ∧
      ∀ userStates : Store, continue3DDialog now userStates chatID text state =
        (userStates.delete chatID, sendStartMessage chatID)) ∨
    (¬ (text = "/restart" ∨ text = restartLabel) ∧ TrimSpace text = "" ∧
      ∀ userStates : Store, continue3DDialog now userStates chatID text state =
        (userStates, [Effect.send ⟨chatID, blankWarning, "", Markup.none⟩])) ∨
    (¬ (text = "/restart" ∨ text = restartLabel) ∧ TrimSpace text ≠ "" ∧
      1 ≤ state.Step ∧ state.Step ≤ 3 ∧
      ∀ userStates : Store, continue3DDialog now userStates chatID text state =
        (userStates.put chatID { state with
            Step := state.Step + 1,
            Data := Data.set state.Data (fieldKey model3DFields state.Step) text },
         [Effect.send (model3DPrompt chatID (state.Step + 1) text)])) ∨
    (¬ (text = "/restart" ∨ text = restartLabel) ∧ TrimSpace text ≠ "" ∧
      state.Step = 4 ∧ text = doneLabel ∧
      ∀ userStates : Store, continue3DDialog now userStates chatID text state =
        (userStates.delete chatID,
         [Effect.saveApplicationToFile chatID state.Data "3d",
          Effect.send ⟨chatID, model3DSummary state.Data now, "Markdown", Markup.remove true⟩,
          Effect.sendAdminNotification model3DAdminTitle state.Data])) ∨
    (¬ (text = "/restart" ∨ text = restartLabel) ∧ TrimSpace text ≠ "" ∧
      state.Step = 4 ∧ text ≠ doneLabel ∧
      ∀ userStates : Store, continue3DDialog now userStates chatID text state =
        (userStates, [Effect.send ⟨chatID, confirmReminder, "", Markup.none⟩])) ∨
    (¬ (text = "/restart" ∨ text = restartLabel) ∧ TrimSpace text ≠ "" ∧
      (state.Step < 1 ∨ 4 < state.Step) ∧
      ∀ userStates : Store, continue3DDialog now userStates chatID text state = (userStates, [])) := by
  obtain ⟨cid, svc, step, data⟩ := state
  by_cases hri : text = "/restart" ∨ text = restartLabel
  · exact Or.inl ⟨hri, fun userStates => by simp [continue3DDialog, hri]⟩
  by_cases hb : TrimSpace text = ""
  · exact Or.inr (Or.inl ⟨hri, hb, fun userStates => by simp [continue3DDialog, hri, hb]⟩)
  have hlen := utf8ByteSize_pos_of_not_blank text hb
  by_cases hrange : 1 ≤ step ∧ step ≤ 3
  · refine Or.inr (Or.inr (Or.inl ⟨hri, hb, hrange.1, hrange.2, fun userStates => ?_⟩))
    have hcases : step = 1 ∨ step = 2 ∨ step = 3 := by omega
    rcases hcases with h | h | h <;> subst h <;>
      simp [continue3DDialog, hri, hb, fieldKey, model3DFields, model3DPrompt, hlen]
  by_cases h4 : step = 4
  · subst h4
    by_cases hd : text = doneLabel
    · subst hd
      exact Or.inr (Or.inr (Or.inr (Or.inl ⟨hri, hb, rfl, rfl,
        fun userStates => by simp [continue3DDialog, hri, hb]⟩)))
    · exact Or.inr (Or.inr (Or.inr (Or.inr (Or.inl ⟨hri, hb, rfl, hd,
        fun userStates => by simp [continue3DDialog, hri, hb, hd]⟩))))
  · have n1 : ¬ step = 1 := by omega
    have n2 : ¬ step = 2 := by omega
    have n3 : ¬ step = 3 := by omega
    exact Or.inr (Or.inr (Or.inr (Or.inr (Or.inr ⟨hri, hb, by simp only; omega,
      fun userStates => by simp [continue3DDialog, hri, hb, n1, n2, n3, h4]⟩))))

/-- What `continueDialog` can do to the store, for any state: leave it, delete the entry of
the chat, or replace the entry of the chat. -/
theorem continueDialog_store_cases (now : String) (userStates : Store) (chatID : Int)
    (text : String) (state : UserState) :
    (continueDialog now userStates chatID text state).1 = userStates ∨
    (continueDialog now userStates chatID text state).1 = userStates.delete chatID ∨
    ∃ state', (continueDialog now userStates chatID text state).1 =
      userStates.put chatID state' := by
  unfold continueDialog
  by_cases hsvc : state.ServiceType = "water"
  · rw [if_pos hsvc]
    rcases continueWaterDialog_cases now chatID text state with
      ⟨_, h⟩ | ⟨_, _, h⟩ | ⟨_, _, _, _, h⟩ | ⟨_, _, _, _, h⟩ | ⟨_, _, _, _, h⟩ | ⟨_, _, _, h⟩ <;>
      rw [h userStates] <;>
      first
      | exact Or.inl rfl
      | exact Or.inr (Or.inl rfl)
      | exact Or.inr (Or.inr ⟨_, rfl⟩)
  · rw [if_neg hsvc]
    rcases continue3DDialog_cases now chatID text state with
      ⟨_, h⟩ | ⟨_, _, h⟩ | ⟨_, _, _, _, h⟩ | ⟨_, _, _, _, h⟩ | ⟨_, _, _, _, h⟩ | ⟨_, _, _, h⟩ <;>
      rw [h userStates] <;>
      first
      | exact Or.inl rfl
      | exact Or.inr (Or.inl rfl)
      | exact Or.inr (Or.inr ⟨_, rfl⟩)

/-- What `handleMessage` can do to the store: leave it, delete the entry of the chat, or
replace the entry of the chat. -/
theorem handleMessage_store_cases (now : String) (userStates : Store) (chatID : Int)
    (text : String) :
    (handleMessage now userStates chatID text).1 = userStates ∨
    (handleMessage now userStates chatID text).1 = userStates.delete chatID ∨
    ∃ state', (handleMessage now userStates chatID text).1 = userStates.put chatID state' := by
  by_cases hr : isRestartToken text
  · rw [handleMessage_restart now userStates chatID text hr]
    exact Or.inr (Or.inl rfl)
  by_cases hw : selectsWater text
  · rw [handleMessage_selectsWater now userStates chatID text hr hw]
    exact Or.inr (Or.inr ⟨_, rfl⟩)
  by_cases h3 : selects3D text
  · rw [handleMessage_selects3D now userStates chatID text hr hw h3]
    exact Or.inr (Or.inr ⟨_, rfl⟩)
  cases hs : userStates chatID with
  | none =>
    rw [handleMessage_of_no_state now userStates chatID text hs hr hw h3]
    exact Or.inl rfl
  | some state =>
    rw [handleMessage_of_state now userStates chatID text state hs hr hw h3]
    exact continueDialog_store_cases now userStates chatID text state

/-- A call for one chat leaves the entry of every other chat as it was. -/
theorem handleMessage_frame (now : String) (userStates : Store) (chatID other : Int)
    (text : String) (h : other ≠ chatID) :
    (handleMessage now userStates chatID text).1 other = userStates other := by
  rcases handleMessage_store_cases now userStates chatID text with hc | hc | ⟨state', hc⟩
  · rw [hc]
  · rw [hc]
    simp [Store.delete, h]
  · rw [hc]
    simp [Store.put, h]

/-- The entry of the chat and the actions of `continueDialog` do not depend on the rest
of the store. -/
theorem continueDialog_local (now : String) (s1 s2 : Store) (chatID : Int) (text : String)
    (state : UserState) (h : s1 chatID = s2 chatID) :
    (continueDialog now s1 chatID text state).1 chatID =
      (continueDialog now s2 chatID text state).1 chatID ∧
    (continueDialog now s1 chatID text state).2 =
      (continueDialog now s2 chatID text state).2 := by
  unfold continueDialog
  by_cases hsvc : state.ServiceType = "water"
  · rw [if_pos hsvc, if_pos hsvc]
    rcases continueWaterDialog_cases now chatID text state with
      ⟨_, e⟩ | ⟨_, _, e⟩ | ⟨_, _, _, _, e⟩ | ⟨_, _, _, _, e⟩ | ⟨_, _, _, _, e⟩ | ⟨_, _, _, e⟩ <;>
      rw [e s1, e s2] <;> simp [Store.put, Store.delete, h]
  · rw [if_neg hsvc, if_neg hsvc]
    rcases continue3DDialog_cases now chatID text state with
      ⟨_, e⟩ | ⟨_, _, e⟩ | ⟨_, _, _, _, e⟩ | ⟨_, _, _, _, e⟩ | ⟨_, _, _, _, e⟩ | ⟨_, _, _, e⟩ <;>
      rw [e s1, e s2] <;> simp [Store.put, Store.delete, h]

/-- The entry of the chat and the actions of `handleMessage` do not depend on the rest of
the store. -/
theorem handleMessage_local (now : String) (s1 s2 : Store) (chatID : Int) (text : String)
    (h : s1 chatID = s2 chatID) :
    (handleMessage now s1 chatID text).1 chatID = (handleMessage now s2 chatID text).1 chatID ∧
    (handleMessage now s1 chatID text).2 = (handleMessage now s2 chatID text).2 := by
  by_cases hr : isRestartToken text
  · rw [handleMessage_restart now s1 chatID text hr, handleMessage_restart now s2 chatID text hr]
    simp [Store.delete]
  by_cases hw : selectsWater text
  · rw [handleMessage_selectsWater now s1 chatID text hr hw,
      handleMessage_selectsWater now s2 chatID text hr hw]
    simp [startWaterConsultation, Store.put]
  by_cases h3 : selects3D text
  · rw [handleMessage_selects3D now s1 chatID text hr hw h3,
      handleMessage_selects3D now s2 chatID text hr hw h3]
    simp [start3DModeling, Store.put]
  cases hs : s1 chatID with
  | none =>
    rw [handleMessage_of_no_state now s1 chatID text hs hr hw h3,
      handleMessage_of_no_state now s2 chatID text (h ▸ hs) hr hw h3]
    exact ⟨h, rfl⟩
  | some state =>
    rw [handleMessage_of_state now s1 chatID text state hs hr hw h3,
      handleMessage_of_state now s2 chatID text state (h ▸ hs) hr hw h3]
    exact continueDialog_local now s1 s2 chatID text state h

/-- C11: a `handleMessage` call for chat `c` leaves the entry of every other chat `d`
(present or absent) exactly as it was, and the resulting entry of `c` and the actions
performed are the same in any two stores that agree on the entry of `c`: they depend only
on the prior entry of `c` and the text. -/
theorem chat_isolation (now : String) (userStates : Store) (c d : Int) (text : String)
    (hcd : c ≠ d) :
    (handleMessage now userStates c text).1 d = userStates d ∧
    ∀ userStates' : Store, userStates' c = userStates c →
      (handleMessage now userStates' c text).1 c = (handleMessage now userStates c text).1 c ∧
      (handleMessage now userStates' c text).2 = (handleMessage now userStates c text).2 :=
  ⟨handleMessage_frame now userStates c d text (Ne.symm hcd),
    fun userStates' h => handleMessage_local now userStates' userStates c text h⟩

/-- Witness of C11: chat 7 answers at step 1 while chat 8 is at step 3 of the 3D flow. -/
theorem chat_isolation_witness :
    (7 : Int) ≠ 8 ∧
    (handleMessage "t" (Store.put (Store.put Store.empty 8 ⟨8, "3d", 3, [("element_name", "a"),
      ("requirements", "b")]⟩) 7 ⟨7, "water", 1, []⟩) 7 "ХВС").1 8 =
      some ⟨8, "3d", 3, [("element_name", "a"), ("requirements", "b")]⟩ :=
  ⟨by decide, (chat_isolation "t" (Store.put (Store.put Store.empty 8 ⟨8, "3d", 3,
      [("element_name", "a"), ("requirements", "b")]⟩) 7 ⟨7, "water", 1, []⟩) 7 8 "ХВС"
      (by decide)).1⟩

/-- One call with a text that is neither a restart token nor a flow selection, for a chat
that has a state before and after: the flow is kept and the step stays or grows by one. -/
theorem handleMessage_step (now : String) (userStates : Store) (chatID : Int) (text : String)
    (state state' : UserState) (hs : userStates chatID = some state)
    (hr : ¬ isRestartToken text) (hw : ¬ selectsWater text) (h3 : ¬ selects3D text)
    (hs' : (handleMessage now userStates chatID text).1 chatID = some state') :
    state'.ServiceType = state.ServiceType ∧
    (state'.Step = state.Step ∨ state'.Step = state.Step + 1) := by
  rw [handleMessage_of_state now userStates chatID text state hs hr hw h3] at hs'
  unfold continueDialog at hs'
  by_cases hsvc : state.ServiceType = "water"
  · rw [if_pos hsvc] at hs'
    rcases continueWaterDialog_cases now chatID text state with
      ⟨_, e⟩ | ⟨_, _, e⟩ | ⟨_, _, _, _, e⟩ | ⟨_, _, _, _, e⟩ | ⟨_, _, _, _, e⟩ | ⟨_, _, _, e⟩ <;>
      rw [e userStates] at hs' <;>
      simp only [Store.put, Store.delete, if_true, hs, Option.some.injEq] at hs' <;>
      first
      | exact absurd hs' (by simp)
      | (subst hs'; simp)
  · rw [if_neg hsvc] at hs'
    rcases continue3DDialog_cases now chatID text state with
      ⟨_, e⟩ | ⟨_, _, e⟩ | ⟨_, _, _, _, e⟩ | ⟨_, _, _, _, e⟩ | ⟨_, _, _, _, e⟩ | ⟨_, _, _, e⟩ <;>
      rw [e userStates] at hs' <;>
      simp only [Store.put, Store.delete, if_true, hs, Option.some.injEq] at hs' <;>
      first
      | exact absurd hs' (by simp)
      | (subst hs'; simp)

/-- A call with a text that is not a flow selection creates no state: a chat without an
entry has none afterwards, whichever chat the call is for. -/
theorem handleMessage_no_creation (now : String) (userStates : Store) (chatID other : Int)
    (text : String) (hs : userStates other = none)
    (hr : ¬ isRestartToken text) (hw : ¬ selectsWater text) (h3 : ¬ selects3D text) :
    (handleMessage now userStates chatID text).1 other = none := by
  by_cases hc : other = chatID
  · subst hc
    rw [handleMessage_of_no_state now userStates other text hs hr hw h3]
    exact hs
  · rw [handleMessage_frame now userStates chatID other text hc]
    exact hs

/-- A run in which the chat itself sends no restart token and no flow selection creates no
state for it, whatever the other chats send. -/
theorem runUpdates_no_creation (userStates : Store) (other : Int) (us : List Update)
    (hs : userStates other = none)
    (hus : ∀ u ∈ us, u.chatID = other →
      ¬ isRestartToken u.text ∧ ¬ selectsWater u.text ∧ ¬ selects3D u.text) :
    (runUpdates userStates us).1 other = none := by
  induction us generalizing userStates with
  | nil => exact hs
  | cons u us ih =>
    have hrest := fun v hv => hus v (List.mem_cons_of_mem _ hv)
    simp only [runUpdates]
    by_cases hc : u.chatID = other
    · obtain ⟨hr, hw, h3⟩ := hus u (List.mem_cons_self _ _) hc
      exact ih _ (handleMessage_no_creation u.now userStates u.chatID other u.text hs hr hw h3)
        hrest
    · have hframe := handleMessage_frame u.now userStates u.chatID other u.text
        (fun h => hc h.symm)
      exact ih _ (hframe.trans hs) hrest

/-- Along a run in which the chat itself sends no restart token and no flow selection
(the other chats may send anything), a chat that has a state before and after keeps its
flow and its step does not decrease. -/
theorem runUpdates_step (userStates : Store) (chatID : Int) (us : List Update)
    (state state' : UserState) (hs : userStates chatID = some state)
    (hus : ∀ u ∈ us, u.chatID = chatID →
      ¬ isRestartToken u.text ∧ ¬ selectsWater u.text ∧ ¬ selects3D u.text)
    (hs' : (runUpdates userStates us).1 chatID = some state') :
    state'.ServiceType = state.ServiceType ∧ state.Step ≤ state'.Step := by
  induction us generalizing userStates state with
  | nil =>
    simp only [runUpdates] at hs'
    rw [hs] at hs'
    simp only [Option.some.injEq] at hs'
    subst hs'
    exact ⟨rfl, le_refl _⟩
  | cons u us ih =>
    have hrest := fun v hv => hus v (List.mem_cons_of_mem _ hv)
    simp only [runUpdates] at hs'
    cases hmid : (handleMessage u.now userStates u.chatID u.text).1 chatID with
    | none =>
      rw [runUpdates_no_creation _ chatID us hmid hrest] at hs'
      exact absurd hs' (by simp)
    | some mid =>
      obtain ⟨hsvc, hstep⟩ := ih _ mid hmid hrest hs'
      by_cases hc : u.chatID = chatID
      · obtain ⟨hr, hw, h3⟩ := hus u (List.mem_cons_self _ _) hc
        rw [hc] at hmid
        obtain ⟨msvc, mstep⟩ := handleMessage_step u.now userStates chatID u.text state mid hs
          hr hw h3 hmid
        exact ⟨hsvc.trans msvc, by omega⟩
      · rw [handleMessage_frame u.now userStates u.chatID chatID u.text
          (fun h => hc h.symm), hs] at hmid
        simp only [Option.some.injEq] at hmid
        subst hmid
        exact ⟨hsvc, hstep⟩

/-- C12: for a chat that has a state before and after one `handleMessage` call with a text
that is neither a restart token nor a flow selection, the flow is unchanged and the new
step is the old step or the old step plus one.  Hence along any run in which the chat
itself sends no restart token and no flow selection (so it stays in one flow instance),
whatever the other chats send in between, restart tokens and flow selections included, a
chat that has a state before and after keeps its flow and its step never decreases. -/
theorem step_monotonicity (userStates : Store) (chatID : Int) (state : UserState)
    (hs : userStates chatID = some state) :
    (∀ (now text : String) (state' : UserState),
      ¬ isRestartToken text → ¬ selectsWater text → ¬ selects3D text →
      (handleMessage now userStates chatID text).1 chatID = some state' →
      state'.ServiceType = state.ServiceType ∧
      (state'.Step = state.Step ∨ state'.Step = state.Step + 1)) ∧
    (∀ (us : List Update) (state' : UserState),
      (∀ u ∈ us, u.chatID = chatID →
        ¬ isRestartToken u.text ∧ ¬ selectsWater u.text ∧ ¬ selects3D u.text) →
      (runUpdates userStates us).1 chatID = some state' →
      state'.ServiceType = state.ServiceType ∧ state.Step ≤ state'.Step) :=
  ⟨fun now text state' hr hw h3 hs' =>
      handleMessage_step now userStates chatID text state state' hs hr hw h3 hs',
    fun us state' hus hs' => runUpdates_step userStates chatID us state state' hs hus hs'⟩

/-- Witness of C12: chat 7 answers twice at step 2 of the water flow while chat 8 sends
`/start` in between. -/
theorem step_monotonicity_witness :
    Store.put Store.empty 7 ⟨7, "water", 2, [("system_type", "a")]⟩ 7 =
      some ⟨7, "water", 2, [("system_type", "a")]⟩ ∧
    (∀ u ∈ [(⟨"t1", 7, "b"⟩ : Update), ⟨"t2", 8, "/start"⟩, ⟨"t3", 7, "c"⟩], u.chatID = 7 →
      ¬ isRestartToken u.text ∧ ¬ selectsWater u.text ∧ ¬ selects3D u.text) ∧
    (runUpdates (Store.put Store.empty 7 ⟨7, "water", 2, [("system_type", "a")]⟩)
      [⟨"t1", 7, "b"⟩, ⟨"t2", 8, "/start"⟩, ⟨"t3", 7, "c"⟩]).1 7 =
      some ⟨7, "water", 4,
        [("system_type", "a"), ("object_type", "b"), ("object_details", "c")]⟩ ∧
    (2 : Int) ≤ 4 :=
  ⟨rfl, by decide, by decide,
    ((step_monotonicity (Store.put Store.empty 7 ⟨7, "water", 2, [("system_type", "a")]⟩) 7
      ⟨7, "water", 2, [("system_type", "a")]⟩ rfl).2
      [⟨"t1", 7, "b"⟩, ⟨"t2", 8, "/start"⟩, ⟨"t3", 7, "c"⟩]
      ⟨7, "water", 4, [("system_type", "a"), ("object_type", "b"), ("object_details", "c")]⟩
      (by decide) (by decide)).2⟩

/-- The acknowledgement token at the confirmation step: the full result. -/
theorem handleMessage_done_effects (now : String) (userStates : Store) (chatID : Int)
    (state : UserState) (hs : userStates chatID = some state) (ht : atTerminalStep state) :
    handleMessage now userStates chatID doneLabel =
      (userStates.delete chatID,
       [Effect.saveApplicationToFile chatID state.Data state.ServiceType,
        Effect.send (summaryMessage chatID state now),
        Effect.sendAdminNotification (adminTitle state) state.Data]) := by
  rw [handleMessage_of_state now userStates chatID doneLabel state hs (by decide) (by decide)
    (by decide)]
  have hri : ¬ (doneLabel = "/restart" ∨ doneLabel = restartLabel) := by decide
  have hb : TrimSpace doneLabel ≠ "" := by decide
  obtain ⟨cid, svc, step, data⟩ := state
  rcases ht with ⟨hsvc, hstep⟩ | ⟨hsvc, hstep⟩
  · simp only at hsvc hstep
    subst hsvc hstep
    simp [continueDialog, continueWaterDialog, hri, hb, summaryMessage, adminTitle]
  · simp only at hsvc hstep
    subst hsvc hstep
    simp [continueDialog, continue3DDialog, hri, hb, summaryMessage, adminTitle]

/-- C13: on finalisation, whatever the outcome of the file write and of the send to the
operator, the primitive actions are: create the folder, write the file, log the outcome,
send the completion message to the user, send the operator notification (then log its
failure, if any).  So the messages handed to `bot.Send` are the same in all four cases,
the operator notification is attempted after a failed write, and the state is removed. -/
theorem collaborator_failure_invisible (env : Env) (now : String) (userStates : Store)
    (chatID : Int) (state : UserState) (hs : userStates chatID = some state)
    (ht : atTerminalStep state) (writeFails adminSendFails : Bool) :
    performAll { env with writeFails := writeFails, adminSendFails := adminSendFails }
        (handleMessage now userStates chatID doneLabel).2 =
      [Event.mkdirAll "заявки",
       Event.writeFile (fileName env chatID state.ServiceType)
         (fileContent env chatID state.Data state.ServiceType),
       if writeFails then Event.logSaveError
       else Event.logSaved (fileName env chatID state.ServiceType),
       Event.send (summaryMessage chatID state now),
       Event.send (adminMessage env (adminTitle state) state.Data)] ++
      (if adminSendFails then [Event.logAdminError] else []) ∧
    outbound (performAll
        { env with writeFails := writeFails, adminSendFails := adminSendFails }
        (handleMessage now userStates chatID doneLabel).2) =
      [summaryMessage chatID state now, adminMessage env (adminTitle state) state.Data] ∧
    (handleMessage now userStates chatID doneLabel).1 chatID = none := by
  rw [handleMessage_done_effects now userStates chatID state hs ht]
  refine ⟨?_, ?_, by simp [Store.delete]⟩
  · cases writeFails <;> cases adminSendFails <;> rfl
  · cases writeFails <;> cases adminSendFails <;> rfl

/-- Witness of C13: a failed file write at the confirmation step of the 3D flow. -/
theorem collaborator_failure_invisible_witness :
    atTerminalStep ⟨7, "3d", 4, [("contacts", "c")]⟩ ∧
    outbound (performAll
        { (⟨"S", "T", "A", id, id, false, false⟩ : Env) with
          writeFails := true, adminSendFails := false }
        (handleMessage "t" (Store.put Store.empty 7 ⟨7, "3d", 4, [("contacts", "c")]⟩) 7
          doneLabel).2) =
      [summaryMessage 7 ⟨7, "3d", 4, [("contacts", "c")]⟩ "t",
       adminMessage ⟨"S", "T", "A", id, id, false, false⟩
         (adminTitle ⟨7, "3d", 4, [("contacts", "c")]⟩) [("contacts", "c")]] :=
  ⟨by decide, (collaborator_failure_invisible ⟨"S", "T", "A", id, id, false, false⟩ "t"
    (Store.put Store.empty 7 ⟨7, "3d", 4, [("contacts", "c")]⟩) 7
    ⟨7, "3d", 4, [("contacts", "c")]⟩ rfl (by decide) true false).2.1⟩

/-- Reading a key that is present gives the stored value. -/
theorem get_of_lookup (data : Data) (key value : String)
    (h : List.lookup key data = some value) : Data.get data key = value := by
  simp [Data.get, h]

/-- C15: on finalisation the only message of the handler body goes to the chat, removes
the keyboard, and its text is a fixed introduction followed by the collected values
verbatim, each after its fixed label, in the order system_type, object_type,
object_details, additional_info, contacts (water) or element_name, requirements, contacts
(3D), and closed by the request number. -/
theorem completion_summary_content :
    ∃ introWater intro3D : String,
      ∀ (now : String) (userStates : Store) (chatID : Int) (state : UserState),
        userStates chatID = some state → atTerminalStep state →
        (state.ServiceType = "water" →
          sentMessages (handleMessage now userStates chatID doneLabel).2 =
            [⟨chatID,
              introWater ++ "• 🏗️ Система: " ++ Data.get state.Data "system_type" ++
                "\n• 🏢 Объект: " ++ Data.get state.Data "object_type" ++
                "\n• 📍 Детали: " ++ Data.get state.Data "object_details" ++
                "\n• 📋 Доп. информация: " ++ Data.get state.Data "additional_info" ++
                "\n• 📞 Контакты: " ++ Data.get state.Data "contacts" ++
                "\n\n_Заявка №" ++ now,
              "Markdown", Markup.remove true⟩]) ∧
        (state.ServiceType = "3d" →
          sentMessages (handleMessage now userStates chatID doneLabel).2 =
            [⟨chatID,
              intro3D ++ "• 🔧 Название элемента: " ++ Data.get state.Data "element_name" ++
                "\n• 📏 Требования: " ++ Data.get state.Data "requirements" ++
                "\n• 📞 Контакты: " ++ Data.get state.Data "contacts" ++
                "\n\n_Заявка №" ++ now,
              "Markdown", Markup.remove true⟩]) ∧
        ∀ key value, List.lookup key state.Data = some value →
          Data.get state.Data key = value := by
  refine ⟨"✅ *Спасибо за обращение в компанию ВиТИМ!*\n\n✅ *Ваша заявка принята!*\n\n📧 *Мы вышлем проект коммерческого предложения на указанный email в течение 2-х часов.*\n\n👨‍💼 *С вами также свяжется специалист нашей компании в течение часа для уточнения деталей.*\n\n*Собранные данные:*\n",
    "✅ *Спасибо за обращение в компаню ВиТИМ!*\n\n✅ *Ваша заявка принята!*\n\n📧 *Мы вышлем проект коммерческого предложения на указанный email в течение 2-х часов.*\n\n👨‍💻 *С вами также свяжется наш 3D-специалист в течение часа для уточнения технических деталей.*\n\n*Собранные данные:*\n", ?_⟩
  intro now userStates chatID state hs ht
  rw [handleMessage_done_effects now userStates chatID state hs ht]
  refine ⟨?_, ?_, fun key value h => get_of_lookup _ _ _ h⟩
  · intro hsvc
    simp only [sentMessages, summaryMessage, hsvc, if_true, waterSummary]
    set_option maxRecDepth 100000 in rfl
  · intro hsvc
    have hne : ¬ state.ServiceType = "water" := by
      rw [hsvc]
      decide
    simp only [sentMessages, summaryMessage, hne, if_false, model3DSummary]
    set_option maxRecDepth 100000 in rfl

/-- Witness of C15: the summary of a completed 3D dialog echoes the three answers. -/
theorem completion_summary_content_witness :
    ∃ intro3D : String,
      sentMessages (handleMessage "t" (Store.put Store.empty 7 ⟨7, "3d", 4,
        [("element_name", "a"), ("requirements", "b"), ("contacts", "c")]⟩) 7 doneLabel).2 =
        [⟨7, intro3D ++ "• 🔧 Название элемента: " ++ "a" ++ "\n• 📏 Требования: " ++ "b" ++
          "\n• 📞 Контакты: " ++ "c" ++ "\n\n_Заявка №" ++ "t", "Markdown", Markup.remove true⟩] := by
  obtain ⟨_, intro3D, h⟩ := completion_summary_content
  exact ⟨intro3D, (h "t" (Store.put Store.empty 7 ⟨7, "3d", 4,
    [("element_name", "a"), ("requirements", "b"), ("contacts", "c")]⟩) 7
    ⟨7, "3d", 4, [("element_name", "a"), ("requirements", "b"), ("contacts", "c")]⟩ rfl
    (by decide)).2.1 rfl⟩

/-- A blank text sent by a chat that has a state: the full result. -/
theorem handleMessage_blank (now : String) (userStates : Store) (chatID : Int)
    (text : String) (state : UserState) (hs : userStates chatID = some state)
    (hb : TrimSpace text = "") :
    handleMessage now userStates chatID text =
      (userStates, [Effect.send ⟨chatID, blankWarning, "", Markup.none⟩]) := by
  obtain ⟨hr, hw, h3, _⟩ := blank_is_no_token text hb
  have hri := not_restart_inner text hr
  rw [handleMessage_of_state now userStates chatID text state hs hr hw h3]
  unfold continueDialog
  by_cases hsvc : state.ServiceType = "water"
  · rw [if_pos hsvc]
    rcases continueWaterDialog_cases now chatID text state with
      ⟨c, _⟩ | ⟨_, _, e⟩ | ⟨_, c, _⟩ | ⟨_, c, _⟩ | ⟨_, c, _⟩ | ⟨_, c, _⟩
    · exact absurd c hri
    · exact e userStates
    · exact absurd hb c
    · exact absurd hb c
    · exact absurd hb c
    · exact absurd hb c
  · rw [if_neg hsvc]
    rcases continue3DDialog_cases now chatID text state with
      ⟨c, _⟩ | ⟨_, _, e⟩ | ⟨_, c, _⟩ | ⟨_, c, _⟩ | ⟨_, c, _⟩ | ⟨_, c, _⟩
    · exact absurd c hri
    · exact e userStates
    · exact absurd hb c
    · exact absurd hb c
    · exact absurd hb c
    · exact absurd hb c

/-- C16, as stated, fails (scenario B): a chat enters step 3 of the water flow with the
"step 3 of 6" prompt; the empty text then keeps it at step 3, but the reply is the
blank-input warning, whose text is not the text of that prompt. -/
theorem blank_reprompt_counterexample :
    (handleMessage "t" (Store.put Store.empty 7 ⟨7, "water", 2, [("system_type", "a")]⟩) 7
      "b").2 = [Effect.send ⟨7, waterQuestion3, "Markdown", Markup.none⟩] ∧
    (handleMessage "t" (Store.put Store.empty 7
      ⟨7, "water", 3, [("system_type", "a"), ("object_type", "b")]⟩) 7 "").1 7 =
      some ⟨7, "water", 3, [("system_type", "a"), ("object_type", "b")]⟩ ∧
    sentMessages (handleMessage "t" (Store.put Store.empty 7
      ⟨7, "water", 3, [("system_type", "a"), ("object_type", "b")]⟩) 7 "").2 =
      [⟨7, blankWarning, "", Markup.none⟩] ∧
    blankWarning ≠ waterQuestion3 := by
  refine ⟨by rfl, by decide, by decide, by decide⟩

/-- C16, amended: for a chat with a state, at any step of either flow (so at step 3 of the
water flow and at every non-terminal step), a blank text keeps the store, hence the step
and the data, and the only reply is the fixed blank-input warning, sent without parse mode
and without keyboard; its text differs from the prompt of every non-terminal step. -/
theorem blank_reprompt (now : String) (userStates : Store) (chatID : Int) (text : String)
    (state : UserState) (hs : userStates chatID = some state) (hb : TrimSpace text = "") :
    (handleMessage now userStates chatID text).1 = userStates ∧
    (handleMessage now userStates chatID text).1 chatID = some state ∧
    (handleMessage now userStates chatID text).2 =
      [Effect.send ⟨chatID, blankWarning, "", Markup.none⟩] ∧
    (∀ (step : Int) (contacts : String), 1 ≤ step → step ≤ 5 →
      (waterPrompt chatID step contacts).Text ≠ blankWarning) ∧
    (∀ (step : Int) (contacts : String), 1 ≤ step → step ≤ 3 →
      (model3DPrompt chatID step contacts).Text ≠ blankWarning) := by
  rw [handleMessage_blank now userStates chatID text state hs hb]
  refine ⟨rfl, hs, rfl, ?_, ?_⟩
  · intro step contacts h1 h5
    have hcases : step = 1 ∨ step = 2 ∨ step = 3 ∨ step = 4 ∨ step = 5 := by omega
    rcases hcases with h | h | h | h | h <;> subst h <;> norm_num [waterPrompt] <;> decide
  · intro step contacts h1 h3
    have hcases : step = 1 ∨ step = 2 ∨ step = 3 := by omega
    rcases hcases with h | h | h <;> subst h <;> norm_num [model3DPrompt] <;> decide

/-- Witness of C16: the empty text at step 3 of the water flow. -/
theorem blank_reprompt_witness :
    Store.put Store.empty 7 ⟨7, "water", 3, [("system_type", "a"), ("object_type", "b")]⟩ 7 =
      some ⟨7, "water", 3, [("system_type", "a"), ("object_type", "b")]⟩ ∧
    TrimSpace "" = "" ∧
    (handleMessage "t" (Store.put Store.empty 7
      ⟨7, "water", 3, [("system_type", "a"), ("object_type", "b")]⟩) 7 "").2 =
      [Effect.send ⟨7, blankWarning, "", Markup.none⟩] :=
  ⟨rfl, by decide, (blank_reprompt "t" (Store.put Store.empty 7
    ⟨7, "water", 3, [("system_type", "a"), ("object_type", "b")]⟩) 7 ""
    ⟨7, "water", 3, [("system_type", "a"), ("object_type", "b")]⟩ rfl (by decide)).2.2.1⟩

/-- C17, as stated, fails: for a state whose step is outside the range of its flow and a
text that is neither blank, `/restart` nor the restart label, the step switch has no
matching case and no default, so the dialog functions send nothing.  The text `/start`,
which these two functions do not check, is such a text. -/
theorem unknown_step_silent_counterexample :
    (continueWaterDialog "t" (Store.put Store.empty 7 ⟨7, "water", 7, []⟩) 7 "x"
      ⟨7, "water", 7, []⟩).2 = [] ∧
    (continue3DDialog "t" (Store.put Store.empty 7 ⟨7, "3d", 0, []⟩) 7 "x"
      ⟨7, "3d", 0, []⟩).2 = [] ∧
    (continueWaterDialog "t" (Store.put Store.empty 7 ⟨7, "water", 7, []⟩) 7 "/start"
      ⟨7, "water", 7, []⟩).2 = [] ∧
    continueWaterDialogRaw "t" (Store.put Store.empty 7 ⟨7, "water", 7, []⟩) 7 "x"
      ⟨7, "water", 7, some []⟩ = some (Store.put Store.empty 7 ⟨7, "water", 7, []⟩, []) := by
  refine ⟨by decide, by decide, by decide, ?_⟩
  simp only [continueWaterDialogRaw]
  rw [if_neg (by decide)]
  rfl

/-- A single send to the chat is a message to the chat. -/
theorem sent_single (chatID : Int) (m : MessageConfig) (h : m.ChatID = chatID) :
    ∃ msg, msg.ChatID = chatID ∧ msg ∈ sentMessages [Effect.send m] :=
  ⟨m, h, by simp [sentMessages]⟩

/-- The actions of a finalisation include a message to the chat. -/
theorem sent_final (chatID : Int) (m : MessageConfig) (h : m.ChatID = chatID) (a b : Effect) :
    ∃ msg, msg.ChatID = chatID ∧ msg ∈ sentMessages [a, Effect.send m, b] :=
  ⟨m, h, by cases a <;> simp [sentMessages]⟩

/-- Every prompt of the water flow is addressed to the chat. -/
theorem waterPrompt_chatID (chatID : Int) (step : Int) (contacts : String) :
    (waterPrompt chatID step contacts).ChatID = chatID := by
  unfold waterPrompt
  split_ifs <;> rfl

/-- Every prompt of the 3D flow is addressed to the chat. -/
theorem model3DPrompt_chatID (chatID : Int) (step : Int) (contacts : String) :
    (model3DPrompt chatID step contacts).ChatID = chatID := by
  unfold model3DPrompt
  split_ifs <;> rfl

/-- The replies of the dialog functions on a state with a non-nil data map: at least one
message to the chat when the step is within 1..6 (1..4) or the text is blank, `/restart` or
the restart label; the blank-input warning for a blank text; the reminder for a wrong
confirmation token; nothing at all for a step outside the range otherwise. -/
theorem dialog_replies_stored (now : String) (userStates : Store) (chatID : Int)
    (text : String) (state : UserState) :
    ((1 ≤ state.Step ∧ state.Step ≤ 6) ∨ TrimSpace text = "" ∨
        (text = "/restart" ∨ text = restartLabel) →
      ∃ msg, msg.ChatID = chatID ∧
        msg ∈ sentMessages (continueWaterDialog now userStates chatID text state).2) ∧
    ((1 ≤ state.Step ∧ state.Step ≤ 4) ∨ TrimSpace text = "" ∨
        (text = "/restart" ∨ text = restartLabel) →
      ∃ msg, msg.ChatID = chatID ∧
        msg ∈ sentMessages (continue3DDialog now userStates chatID text state).2) ∧
    (¬ (text = "/restart" ∨ text = restartLabel) → TrimSpace text = "" →
      (continueWaterDialog now userStates chatID text state).2 =
        [Effect.send ⟨chatID, blankWarning, "", Markup.none⟩] ∧
      (continue3DDialog now userStates chatID text state).2 =
        [Effect.send ⟨chatID, blankWarning, "", Markup.none⟩]) ∧
    (¬ (text = "/restart" ∨ text = restartLabel) → TrimSpace text ≠ "" →
      text ≠ doneLabel →
      (state.Step = 6 → (continueWaterDialog now userStates chatID text state).2 =
        [Effect.send ⟨chatID, confirmReminder, "", Markup.none⟩]) ∧
      (state.Step = 4 → (continue3DDialog now userStates chatID text state).2 =
        [Effect.send ⟨chatID, confirmReminder, "", Markup.none⟩])) ∧
    (¬ (text = "/restart" ∨ text = restartLabel) → TrimSpace text ≠ "" →
      (state.Step < 1 ∨ 6 < state.Step →
        continueWaterDialog now userStates chatID text state = (userStates, [])) ∧
      (state.Step < 1 ∨ 4 < state.Step →
        continue3DDialog now userStates chatID text state = (userStates, []))) := by
  refine ⟨?_, ?_, ?_, ?_, ?_⟩
  · intro h
    rcases continueWaterDialog_cases now chatID text state with
      ⟨_, e⟩ | ⟨_, _, e⟩ | ⟨_, _, _, _, e⟩ | ⟨_, _, _, _, e⟩ | ⟨_, _, _, _, e⟩ | ⟨c1, c2, c3, e⟩
    · rw [e userStates]
      exact sent_single chatID _ rfl
    · rw [e userStates]
      exact sent_single chatID _ rfl
    · rw [e userStates]
      exact sent_single chatID _ (waterPrompt_chatID chatID _ _)
    · rw [e userStates]
      exact sent_final chatID _ rfl _ _
    · rw [e userStates]
      exact sent_single chatID _ rfl
    · rcases h with h | h | h
      · omega
      · exact absurd h c2
      · exact absurd h c1
  · intro h
    rcases continue3DDialog_cases now chatID text state with
      ⟨_, e⟩ | ⟨_, _, e⟩ | ⟨_, _, _, _, e⟩ | ⟨_, _, _, _, e⟩ | ⟨_, _, _, _, e⟩ | ⟨c1, c2, c3, e⟩
    · rw [e userStates]
      exact sent_single chatID _ rfl
    · rw [e userStates]
      exact sent_single chatID _ rfl
    · rw [e userStates]
      exact sent_single chatID _ (model3DPrompt_chatID chatID _ _)
    · rw [e userStates]
      exact sent_final chatID _ rfl _ _
    · rw [e userStates]
      exact sent_single chatID _ rfl
    · rcases h with h | h | h
      · omega
      · exact absurd h c2
      · exact absurd h c1
  · intro hri hb
    constructor
    · rcases continueWaterDialog_cases now chatID text state with
        ⟨c, _⟩ | ⟨_, _, e⟩ | ⟨_, c, _⟩ | ⟨_, c, _⟩ | ⟨_, c, _⟩ | ⟨_, c, _⟩
      · exact absurd c hri
      · rw [e userStates]
      all_goals exact absurd hb c
    · rcases continue3DDialog_cases now chatID text state with
        ⟨c, _⟩ | ⟨_, _, e⟩ | ⟨_, c, _⟩ | ⟨_, c, _⟩ | ⟨_, c, _⟩ | ⟨_, c, _⟩
      · exact absurd c hri
      · rw [e userStates]
      all_goals exact absurd hb c
  · intro hri hb hd
    constructor
    · intro h6
      rcases continueWaterDialog_cases now chatID text state with
        ⟨c, _⟩ | ⟨_, c, _⟩ | ⟨_, _, _, c, _⟩ | ⟨_, _, _, c, _⟩ | ⟨_, _, _, _, e⟩ | ⟨_, _, c, _⟩
      · exact absurd c hri
      · exact absurd c hb
      · omega
      · exact absurd c hd
      · rw [e userStates]
      · omega
    · intro h4
      rcases continue3DDialog_cases now chatID text state with
        ⟨c, _⟩ | ⟨_, c, _⟩ | ⟨_, _, _, c, _⟩ | ⟨_, _, _, c, _⟩ | ⟨_, _, _, _, e⟩ | ⟨_, _, c, _⟩
      · exact absurd c hri
      · exact absurd c hb
      · omega
      · exact absurd c hd
      · rw [e userStates]
      · omega
  · intro hri hb
    constructor
    · intro hout
      rcases continueWaterDialog_cases now chatID text state with
        ⟨c, _⟩ | ⟨_, c, _⟩ | ⟨_, _, c1, c2, _⟩ | ⟨_, _, c, _⟩ | ⟨_, _, c, _⟩ | ⟨_, _, _, e⟩
      · exact absurd c hri
      · exact absurd c hb
      · omega
      · omega
      · omega
      · exact e userStates
    · intro hout
      rcases continue3DDialog_cases now chatID text state with
        ⟨c, _⟩ | ⟨_, c, _⟩ | ⟨_, _, c1, c2, _⟩ | ⟨_, _, c, _⟩ | ⟨_, _, c, _⟩ | ⟨_, _, _, e⟩
      · exact absurd c hri
      · exact absurd c hb
      · omega
      · omega
      · omega
      · exact e userStates

/-- On a state with a non-nil data map the dialog functions on hand-built states are the
dialog functions on stored states. -/
theorem raw_of_some (now : String) (userStates : Store) (chatID : Int) (text : String)
    (cid : Int) (svc : String) (step : Int) (data : Data) :
    continueWaterDialogRaw now userStates chatID text ⟨cid, svc, step, some data⟩ =
      some (continueWaterDialog now userStates chatID text ⟨cid, svc, step, data⟩) ∧
    continue3DDialogRaw now userStates chatID text ⟨cid, svc, step, some data⟩ =
      some (continue3DDialog now userStates chatID text ⟨cid, svc, step, data⟩) := by
  simp [continueWaterDialogRaw, continue3DDialogRaw]

/-- C17, amended: for every state passed to `continueWaterDialog` (`continue3DDialog`), a
nil `Data` map and a step outside the range included, and every text, at least one message
is sent to the chat when the text is blank, `/restart` or the restart label (the restart
texts these functions check; `/start` is not one of them), or when the step is the
confirmation step 6 (4), or when the step is an answer step 1..5 (1..3) and the `Data` map
is not nil.  A blank text is answered by the blank-input warning and a wrong confirmation
token by the reminder.  In the remaining cases nothing is sent: for a step outside the
range the call returns with the store unchanged and no action, and at an answer step with
a nil `Data` map the call panics at the map write, before any send. -/
theorem dialog_replies_within_range (now : String) (userStates : Store) (chatID : Int)
    (text : String) (state : RawUserState) :
    (TrimSpace text = "" ∨ (text = "/restart" ∨ text = restartLabel) ∨ state.Step = 6 ∨
        (1 ≤ state.Step ∧ state.Step ≤ 5 ∧ state.Data ≠ none) →
      ∃ result msg, continueWaterDialogRaw now userStates chatID text state = some result ∧
        msg.ChatID = chatID ∧ msg ∈ sentMessages result.2) ∧
    (TrimSpace text = "" ∨ (text = "/restart" ∨ text = restartLabel) ∨ state.Step = 4 ∨
        (1 ≤ state.Step ∧ state.Step ≤ 3 ∧ state.Data ≠ none) →
      ∃ result msg, continue3DDialogRaw now userStates chatID text state = some result ∧
        msg.ChatID = chatID ∧ msg ∈ sentMessages result.2) ∧
    (¬ (text = "/restart" ∨ text = restartLabel) → TrimSpace text = "" →
      continueWaterDialogRaw now userStates chatID text state =
        some (userStates, [Effect.send ⟨chatID, blankWarning, "", Markup.none⟩]) ∧
      continue3DDialogRaw now userStates chatID text state =
        some (userStates, [Effect.send ⟨chatID, blankWarning, "", Markup.none⟩])) ∧
    (¬ (text = "/restart" ∨ text = restartLabel) → TrimSpace text ≠ "" →
      text ≠ doneLabel →
      (state.Step = 6 → continueWaterDialogRaw now userStates chatID text state =
        some (userStates, [Effect.send ⟨chatID, confirmReminder, "", Markup.none⟩])) ∧
      (state.Step = 4 → continue3DDialogRaw now userStates chatID text state =
        some (userStates, [Effect.send ⟨chatID, confirmReminder, "", Markup.none⟩]))) ∧
    (¬ (text = "/restart" ∨ text = restartLabel) → TrimSpace text ≠ "" →
      (state.Step < 1 ∨ 6 < state.Step →
        continueWaterDialogRaw now userStates chatID text state = some (userStates, [])) ∧
      (state.Step < 1 ∨ 4 < state.Step →
        continue3DDialogRaw now userStates chatID text state = some (userStates, []))) ∧
    (¬ (text = "/restart" ∨ text = restartLabel) → TrimSpace text ≠ "" →
      state.Data = none →
      (1 ≤ state.Step ∧ state.Step ≤ 5 →
        continueWaterDialogRaw now userStates chatID text state = none) ∧
      (1 ≤ state.Step ∧ state.Step ≤ 3 →
        continue3DDialogRaw now userStates chatID text state = none)) := by
  obtain ⟨cid, svc, step, data⟩ := state
  obtain ⟨hw, h3, _, _, hout⟩ := dialog_replies_stored now userStates chatID text
    ⟨cid, svc, step, data.getD []⟩
  simp only at hw h3 hout ⊢
  refine ⟨?_, ?_, ?_, ?_, ?_, ?_⟩
  · intro h
    have hno : ¬ (data = none ∧ ¬ (text = "/restart" ∨ text = restartLabel) ∧
        TrimSpace text ≠ "" ∧ 1 ≤ step ∧ step ≤ 5) := by
      rintro ⟨hd, hri, hb, _, h5⟩
      rcases h with h | h | h | ⟨_, _, h⟩
      · exact hb h
      · exact hri h
      · omega
      · exact h hd
    have hin : (1 ≤ step ∧ step ≤ 6) ∨ TrimSpace text = "" ∨
        (text = "/restart" ∨ text = restartLabel) := by
      rcases h with h | h | h | ⟨h1, h5, _⟩
      · exact Or.inr (Or.inl h)
      · exact Or.inr (Or.inr h)
      · exact Or.inl (by omega)
      · exact Or.inl (by omega)
    obtain ⟨msg, hc, hm⟩ := hw hin
    exact ⟨_, msg, by simp only [continueWaterDialogRaw]; rw [if_neg hno], hc, hm⟩
  · intro h
    have hno : ¬ (data = none ∧ ¬ (text = "/restart" ∨ text = restartLabel) ∧
        TrimSpace text ≠ "" ∧ 1 ≤ step ∧ step ≤ 3) := by
      rintro ⟨hd, hri, hb, _, h5⟩
      rcases h with h | h | h | ⟨_, _, h⟩
      · exact hb h
      · exact hri h
      · omega
      · exact h hd
    have hin : (1 ≤ step ∧ step ≤ 4) ∨ TrimSpace text = "" ∨
        (text = "/restart" ∨ text = restartLabel) := by
      rcases h with h | h | h | ⟨h1, h5, _⟩
      · exact Or.inr (Or.inl h)
      · exact Or.inr (Or.inr h)
      · exact Or.inl (by omega)
      · exact Or.inl (by omega)
    obtain ⟨msg, hc, hm⟩ := h3 hin
    exact ⟨_, msg, by simp only [continue3DDialogRaw]; rw [if_neg hno], hc, hm⟩
  · intro hri hb
    have hcases := continueWaterDialog_cases now chatID text ⟨cid, svc, step, data.getD []⟩
    have hcases3 := continue3DDialog_cases now chatID text ⟨cid, svc, step, data.getD []⟩
    constructor
    · simp only [continueWaterDialogRaw]
      rw [if_neg (fun h => h.2.2.1 hb)]
      rcases hcases with ⟨c, _⟩ | ⟨_, _, e⟩ | ⟨_, c, _⟩ | ⟨_, c, _⟩ | ⟨_, c, _⟩ | ⟨_, c, _⟩
      · exact absurd c hri
      · rw [e userStates]
      all_goals exact absurd hb c
    · simp only [continue3DDialogRaw]
      rw [if_neg (fun h => h.2.2.1 hb)]
      rcases hcases3 with ⟨c, _⟩ | ⟨_, _, e⟩ | ⟨_, c, _⟩ | ⟨_, c, _⟩ | ⟨_, c, _⟩ | ⟨_, c, _⟩
      · exact absurd c hri
      · rw [e userStates]
      all_goals exact absurd hb c
  · intro hri hb hd
    have hcases := continueWaterDialog_cases now chatID text ⟨cid, svc, step, data.getD []⟩
    have hcases3 := continue3DDialog_cases now chatID text ⟨cid, svc, step, data.getD []⟩
    simp only at hcases hcases3
    constructor
    · intro h6
      simp only [continueWaterDialogRaw]
      rw [if_neg (fun h => by omega)]
      rcases hcases with
        ⟨c, _⟩ | ⟨_, c, _⟩ | ⟨_, _, _, c, _⟩ | ⟨_, _, _, c, _⟩ | ⟨_, _, _, _, e⟩ | ⟨_, _, c, _⟩
      · exact absurd c hri
      · exact absurd c hb
      · omega
      · exact absurd c hd
      · rw [e userStates]
      · omega
    · intro h4
      simp only [continue3DDialogRaw]
      rw [if_neg (fun h => by omega)]
      rcases hcases3 with
        ⟨c, _⟩ | ⟨_, c, _⟩ | ⟨_, _, _, c, _⟩ | ⟨_, _, _, c, _⟩ | ⟨_, _, _, _, e⟩ | ⟨_, _, c, _⟩
      · exact absurd c hri
      · exact absurd c hb
      · omega
      · exact absurd c hd
      · rw [e userStates]
      · omega
  · intro hri hb
    obtain ⟨o1, o2⟩ := hout hri hb
    constructor
    · intro h
      simp only [continueWaterDialogRaw]
      rw [if_neg (fun h' => by omega), o1 h]
    · intro h
      simp only [continue3DDialogRaw]
      rw [if_neg (fun h' => by omega), o2 h]
  · intro hri hb hd
    constructor
    · intro h
      simp only [continueWaterDialogRaw]
      rw [if_pos ⟨hd, hri, hb, h.1, h.2⟩]
    · intro h
      simp only [continue3DDialogRaw]
      rw [if_pos ⟨hd, hri, hb, h.1, h.2⟩]

/-- Witness of C17: a wrong confirmation token at step 6 of the water flow is answered. -/
theorem dialog_replies_within_range_witness :
    (6 : Int) = 6 ∧
    ∃ (result : Store × List Effect) (msg : MessageConfig),
      continueWaterDialogRaw "t" (Store.put Store.empty 7 ⟨7, "water", 6, []⟩) 7 "нет"
        ⟨7, "water", 6, some []⟩ = some result ∧
      msg.ChatID = 7 ∧ msg ∈ sentMessages result.2 :=
  ⟨rfl, (dialog_replies_within_range "t" (Store.put Store.empty 7 ⟨7, "water", 6, []⟩) 7
    "нет" ⟨7, "water", 6, some []⟩).1 (Or.inr (Or.inr (Or.inl rfl)))⟩

/-- Every way a `handleMessage` call can go, with its full result: restart, water
selection, 3D selection, no state, blank text, an answer at a non-terminal step of either
dialog function, a finalisation, a wrong confirmation token, and a step outside the range. -/
theorem handleMessage_cases (now : String) (userStates : Store) (chatID : Int)
    (text : String) :
    handleMessage now userStates chatID text =
      (userStates.delete chatID, sendStartMessage chatID) ∨
    handleMessage now userStates chatID text =
      (userStates.put chatID ⟨chatID, "water", 1, []⟩,
       [Effect.send (waterPrompt chatID 1 "")]) ∨
    handleMessage now userStates chatID text =
      (userStates.put chatID ⟨chatID, "3d", 1, []⟩,
       [Effect.send (model3DPrompt chatID 1 "")]) ∨
    handleMessage now userStates chatID text = (userStates, sendStartMessage chatID) ∨
    handleMessage now userStates chatID text =
      (userStates, [Effect.send ⟨chatID, blankWarning, "", Markup.none⟩]) ∨
    (∃ state, userStates chatID = some state ∧ state.ServiceType = "water" ∧
      1 ≤ state.Step ∧ state.Step ≤ 5 ∧
      handleMessage now userStates chatID text =
        (userStates.put chatID { state with
            Step := state.Step + 1,
            Data := Data.set state.Data (fieldKey waterFields state.Step) text },
         [Effect.send (waterPrompt chatID (state.Step + 1) text)])) ∨
    (∃ state, userStates chatID = some state ∧ state.ServiceType ≠ "water" ∧
      1 ≤ state.Step ∧ state.Step ≤ 3 ∧
      handleMessage now userStates chatID text =
        (userStates.put chatID { state with
            Step := state.Step + 1,
            Data := Data.set state.Data (fieldKey model3DFields state.Step) text },
         [Effect.send (model3DPrompt chatID (state.Step + 1) text)])) ∨
    (∃ state, userStates chatID = some state ∧ text = doneLabel ∧
      state.ServiceType = "water" ∧ state.Step = 6 ∧
      handleMessage now userStates chatID text =
        (userStates.delete chatID,
         [Effect.saveApplicationToFile chatID state.Data "water",
          Effect.send ⟨chatID, waterSummary state.Data now, "Markdown", Markup.remove true⟩,
          Effect.sendAdminNotification waterAdminTitle state.Data])) ∨
    (∃ state, userStates chatID = some state ∧ text = doneLabel ∧
      state.ServiceType ≠ "water" ∧ state.Step = 4 ∧
      handleMessage now userStates chatID text =
        (userStates.delete chatID,
         [Effect.saveApplicationToFile chatID state.Data "3d",
          Effect.send ⟨chatID, model3DSummary state.Data now, "Markdown", Markup.remove true⟩,
          Effect.sendAdminNotification model3DAdminTitle state.Data])) ∨
    handleMessage now userStates chatID text =
      (userStates, [Effect.send ⟨chatID, confirmReminder, "", Markup.none⟩]) ∨
    handleMessage now userStates chatID text = (userStates, []) := by
  by_cases hr : isRestartToken text
  · exact Or.inl (handleMessage_restart now userStates chatID text hr)
  by_cases hw : selectsWater text
  · exact Or.inr (Or.inl (handleMessage_selectsWater now userStates chatID text hr hw))
  by_cases h3 : selects3D text
  · exact Or.inr (Or.inr (Or.inl (handleMessage_selects3D now userStates chatID text hr hw h3)))
  cases hs : userStates chatID with
  | none =>
    exact Or.inr (Or.inr (Or.inr (Or.inl
      (handleMessage_of_no_state now userStates chatID text hs hr hw h3))))
  | some state =>
    have hri := not_restart_inner text hr
    rw [handleMessage_of_state now userStates chatID text state hs hr hw h3]
    unfold continueDialog
    by_cases hsvc : state.ServiceType = "water"
    · rw [if_pos hsvc]
      rcases continueWaterDialog_cases now chatID text state with
        ⟨c, _⟩ | ⟨_, _, e⟩ | ⟨_, _, c1, c2, e⟩ | ⟨_, _, c1, c2, e⟩ | ⟨_, _, _, _, e⟩ |
        ⟨_, _, _, e⟩
      · exact absurd c hri
      · exact Or.inr (Or.inr (Or.inr (Or.inr (Or.inl (e userStates)))))
      · exact Or.inr (Or.inr (Or.inr (Or.inr (Or.inr (Or.inl
          ⟨state, rfl, hsvc, c1, c2, e userStates⟩)))))
      · exact Or.inr (Or.inr (Or.inr (Or.inr (Or.inr (Or.inr (Or.inr (Or.inl
          ⟨state, rfl, c2, hsvc, c1, e userStates⟩)))))))
      · exact Or.inr (Or.inr (Or.inr (Or.inr (Or.inr (Or.inr (Or.inr (Or.inr (Or.inr (Or.inl
          (e userStates))))))))))
      · exact Or.inr (Or.inr (Or.inr (Or.inr (Or.inr (Or.inr (Or.inr (Or.inr (Or.inr (Or.inr
          (e userStates))))))))))
    · rw [if_neg hsvc]
      rcases continue3DDialog_cases now chatID text state with
        ⟨c, _⟩ | ⟨_, _, e⟩ | ⟨_, _, c1, c2, e⟩ | ⟨_, _, c1, c2, e⟩ | ⟨_, _, _, _, e⟩ |
        ⟨_, _, _, e⟩
      · exact absurd c hri
      · exact Or.inr (Or.inr (Or.inr (Or.inr (Or.inl (e userStates)))))
      · exact Or.inr (Or.inr (Or.inr (Or.inr (Or.inr (Or.inr (Or.inl
          ⟨state, rfl, hsvc, c1, c2, e userStates⟩))))))
      · exact Or.inr (Or.inr (Or.inr (Or.inr (Or.inr (Or.inr (Or.inr (Or.inr (Or.inl
          ⟨state, rfl, c2, hsvc, c1, e userStates⟩))))))))
      · exact Or.inr (Or.inr (Or.inr (Or.inr (Or.inr (Or.inr (Or.inr (Or.inr (Or.inr (Or.inl
          (e userStates))))))))))
      · exact Or.inr (Or.inr (Or.inr (Or.inr (Or.inr (Or.inr (Or.inr (Or.inr (Or.inr (Or.inr
          (e userStates))))))))))

/-- The markup of the prompts of the water flow: none before step 6. -/
theorem waterPrompt_markup (chatID : Int) (step : Int) (contacts : String) (h1 : 1 ≤ step)
    (h5 : step ≤ 5) : (waterPrompt chatID step contacts).ReplyMarkup = Markup.none := by
  have hcases : step = 1 ∨ step = 2 ∨ step = 3 ∨ step = 4 ∨ step = 5 := by omega
  rcases hcases with h | h | h | h | h <;> subst h <;> simp [waterPrompt]

/-- The markup of the prompts of the 3D flow: none before step 4. -/
theorem model3DPrompt_markup (chatID : Int) (step : Int) (contacts : String) (h1 : 1 ≤ step)
    (h3 : step ≤ 3) : (model3DPrompt chatID step contacts).ReplyMarkup = Markup.none := by
  have hcases : step = 1 ∨ step = 2 ∨ step = 3 := by omega
  rcases hcases with h | h | h <;> subst h <;> simp [model3DPrompt]

/-- The reply keyboards of `handleMessage`: the flow-selection keyboard of the welcome
message, or the confirmation keyboard, attached to the prompt by which a chat at step 5
of the water dialog (step 3 of the 3D dialog) enters the confirmation step. -/
theorem handleMessage_keyboards (now : String) (userStates : Store) (chatID : Int)
    (text : String) (msg : MessageConfig) (rows : List (List String))
    (hmsg : Effect.send msg ∈ (handleMessage now userStates chatID text).2)
    (hrows : msg.ReplyMarkup = Markup.keyboard rows) :
    rows = [[waterLabel], [model3DLabel], [restartLabel]] ∨
    (rows = [[doneLabel], [restartLabel]] ∧
      ∃ state, userStates chatID = some state ∧
        ((state.ServiceType = "water" ∧ state.Step = 5 ∧ msg = waterPrompt chatID 6 text ∧
            (handleMessage now userStates chatID text).1 chatID =
              some { state with Step := 6, Data := Data.set state.Data "contacts" text }) ∨
         (state.ServiceType ≠ "water" ∧ state.Step = 3 ∧ msg = model3DPrompt chatID 4 text ∧
            (handleMessage now userStates chatID text).1 chatID =
              some { state with Step := 4, Data := Data.set state.Data "contacts" text }))) := by
  rcases handleMessage_cases now userStates chatID text with
    e | e | e | e | e | ⟨st, hs, hsvc, h1, h5, e⟩ | ⟨st, hs, hsvc, h1, h3, e⟩ |
    ⟨st, _, _, _, _, e⟩ | ⟨st, _, _, _, _, e⟩ | e | e
  · rw [e] at hmsg
    simp only [sendStartMessage, List.mem_singleton, Effect.send.injEq] at hmsg
    subst hmsg
    simp only [Markup.keyboard.injEq] at hrows
    exact Or.inl hrows.symm
  · rw [e] at hmsg
    simp only [List.mem_singleton, Effect.send.injEq] at hmsg
    subst hmsg
    simp [waterPrompt] at hrows
  · rw [e] at hmsg
    simp only [List.mem_singleton, Effect.send.injEq] at hmsg
    subst hmsg
    simp [model3DPrompt] at hrows
  · rw [e] at hmsg
    simp only [sendStartMessage, List.mem_singleton, Effect.send.injEq] at hmsg
    subst hmsg
    simp only [Markup.keyboard.injEq] at hrows
    exact Or.inl hrows.symm
  · rw [e] at hmsg
    simp only [List.mem_singleton, Effect.send.injEq] at hmsg
    subst hmsg
    simp at hrows
  · rw [e] at hmsg ⊢
    simp only [List.mem_singleton, Effect.send.injEq] at hmsg
    subst hmsg
    by_cases h4 : st.Step ≤ 4
    · rw [waterPrompt_markup chatID (st.Step + 1) text (by omega) (by omega)] at hrows
      simp at hrows
    · have h5' : st.Step = 5 := by omega
      rw [h5'] at hrows ⊢
      simp only [waterPrompt, confirmKeyboard, Markup.keyboard.injEq] at hrows
      norm_num at hrows
      refine Or.inr ⟨hrows.symm, st, hs, Or.inl ⟨hsvc, h5', rfl, ?_⟩⟩
      simp [Store.put, fieldKey, waterFields]
  · rw [e] at hmsg ⊢
    simp only [List.mem_singleton, Effect.send.injEq] at hmsg
    subst hmsg
    by_cases h2 : st.Step ≤ 2
    · rw [model3DPrompt_markup chatID (st.Step + 1) text (by omega) (by omega)] at hrows
      simp at hrows
    · have h3' : st.Step = 3 := by omega
      rw [h3'] at hrows ⊢
      simp only [model3DPrompt, confirmKeyboard, Markup.keyboard.injEq] at hrows
      norm_num at hrows
      refine Or.inr ⟨hrows.symm, st, hs, Or.inr ⟨hsvc, h3', rfl, ?_⟩⟩
      simp [Store.put, fieldKey, model3DFields]
  · rw [e] at hmsg
    simp only [List.mem_cons, List.mem_singleton, Effect.send.injEq, List.not_mem_nil,
      or_false, false_or, reduceCtorEq] at hmsg
    subst hmsg
    simp at hrows
  · rw [e] at hmsg
    simp only [List.mem_cons, List.mem_singleton, Effect.send.injEq, List.not_mem_nil,
      or_false, false_or, reduceCtorEq] at hmsg
    subst hmsg
    simp at hrows
  · rw [e] at hmsg
    simp only [List.mem_singleton, Effect.send.injEq] at hmsg
    subst hmsg
    simp at hrows
  · rw [e] at hmsg
    simp at hmsg

/-- C18: every label on a reply keyboard sent by `handleMessage` is one of the four
buttons, and each button sent back as text takes the branch it names.  The water button
puts the chat in a fresh water state at step 1 and sends the step-1 prompt of the water
flow.  The 3D button does not match the water pattern, puts the chat in a fresh 3D state
at step 1 and sends the step-1 prompt of the 3D flow.  The restart button, from any state,
leaves the chat without state and sends the welcome message.  The acknowledgement button
at the confirmation step removes the state and performs the persist call, the completion
message and the operator notification.  A keyboard with the acknowledgement button is
attached only to the prompt by which a chat enters the confirmation step (water step 6,
3D step 4). -/
theorem buttons_recognised (now : String) (userStates : Store) (chatID : Int) :
    (∀ (text : String) (msg : MessageConfig) (rows : List (List String)) (label : String),
      Effect.send msg ∈ (handleMessage now userStates chatID text).2 →
      msg.ReplyMarkup = Markup.keyboard rows → (∃ row ∈ rows, label ∈ row) →
      label = waterLabel ∨ label = model3DLabel ∨ label = restartLabel ∨ label = doneLabel) ∧
    ((handleMessage now userStates chatID waterLabel).1 chatID =
        some ⟨chatID, "water", 1, []⟩ ∧
      (handleMessage now userStates chatID waterLabel).2 =
        [Effect.send ⟨chatID, waterQuestion1, "Markdown", Markup.none⟩]) ∧
    (¬ selectsWater model3DLabel ∧
      (handleMessage now userStates chatID model3DLabel).1 chatID =
        some ⟨chatID, "3d", 1, []⟩ ∧
      (handleMessage now userStates chatID model3DLabel).2 =
        [Effect.send ⟨chatID, model3DQuestion1, "Markdown", Markup.none⟩]) ∧
    ((handleMessage now userStates chatID restartLabel).1 chatID = none ∧
      (handleMessage now userStates chatID restartLabel).2 =
        [Effect.send ⟨chatID, startText, "Markdown",
          Markup.keyboard [[waterLabel], [model3DLabel], [restartLabel]]⟩]) ∧
    (∀ state, userStates chatID = some state → atTerminalStep state →
      (handleMessage now userStates chatID doneLabel).1 chatID = none ∧
      (handleMessage now userStates chatID doneLabel).2 =
        [Effect.saveApplicationToFile chatID state.Data state.ServiceType,
         Effect.send (summaryMessage chatID state now),
         Effect.sendAdminNotification (adminTitle state) state.Data]) ∧
    (∀ (text : String) (msg : MessageConfig) (rows : List (List String)),
      Effect.send msg ∈ (handleMessage now userStates chatID text).2 →
      msg.ReplyMarkup = Markup.keyboard rows → (∃ row ∈ rows, doneLabel ∈ row) →
      ∃ state, userStates chatID = some state ∧
        ((state.ServiceType = "water" ∧ state.Step = 5 ∧ msg = waterPrompt chatID 6 text ∧
            (handleMessage now userStates chatID text).1 chatID =
              some { state with Step := 6, Data := Data.set state.Data "contacts" text }) ∨
         (state.ServiceType ≠ "water" ∧ state.Step = 3 ∧ msg = model3DPrompt chatID 4 text ∧
            (handleMessage now userStates chatID text).1 chatID =
              some { state with Step := 4, Data := Data.set state.Data "contacts" text }))) := by
  refine ⟨?_, ?_, ⟨by decide, ?_⟩, ?_, ?_, ?_⟩
  · intro text msg rows label hmsg hrows hlabel
    obtain ⟨row, hrow, hmem⟩ := hlabel
    rcases handleMessage_keyboards now userStates chatID text msg rows hmsg hrows with
      h | ⟨h, _⟩
    · subst h
      simp only [List.mem_cons, List.mem_singleton, List.not_mem_nil, or_false] at hrow
      rcases hrow with h | h | h <;> subst h <;>
        simp only [List.mem_singleton] at hmem <;> simp [hmem]
    · subst h
      simp only [List.mem_cons, List.mem_singleton, List.not_mem_nil, or_false] at hrow
      rcases hrow with h | h <;> subst h <;>
        simp only [List.mem_singleton] at hmem <;> simp [hmem]
  · rw [handleMessage_selectsWater now userStates chatID waterLabel (by decide) (by decide)]
    exact ⟨by simp [startWaterConsultation, Store.put], rfl⟩
  · rw [handleMessage_selects3D now userStates chatID model3DLabel (by decide) (by decide)
      (by decide)]
    exact ⟨by simp [start3DModeling, Store.put], rfl⟩
  · rw [handleMessage_restart now userStates chatID restartLabel (by decide)]
    exact ⟨by simp [Store.delete], rfl⟩
  · intro state hs ht
    rw [handleMessage_done_effects now userStates chatID state hs ht]
    exact ⟨by simp [Store.delete], rfl⟩
  · intro text msg rows hmsg hrows hlabel
    obtain ⟨row, hrow, hmem⟩ := hlabel
    rcases handleMessage_keyboards now userStates chatID text msg rows hmsg hrows with
      h | ⟨_, h⟩
    · subst h
      simp only [List.mem_cons, List.mem_singleton, List.not_mem_nil, or_false] at hrow
      rcases hrow with h | h | h <;> subst h <;>
        simp only [List.mem_singleton] at hmem <;> exact absurd hmem (by decide)
    · exact h

/-- Witness of C18: the contacts answer at step 5 of the water flow is the call that
attaches the keyboard with the acknowledgement button. -/
theorem buttons_recognised_witness :
    Effect.send (waterPrompt 7 6 "c") ∈
      (handleMessage "t" (Store.put Store.empty 7 ⟨7, "water", 5, []⟩) 7 "c").2 ∧
    (waterPrompt 7 6 "c").ReplyMarkup = Markup.keyboard [[doneLabel], [restartLabel]] ∧
    ∃ state, Store.put Store.empty 7 ⟨7, "water", 5, []⟩ 7 = some state ∧
      ((state.ServiceType = "water" ∧ state.Step = 5 ∧
          waterPrompt 7 6 "c" = waterPrompt 7 6 "c" ∧
          (handleMessage "t" (Store.put Store.empty 7 ⟨7, "water", 5, []⟩) 7 "c").1 7 =
            some { state with Step := 6, Data := Data.set state.Data "contacts" "c" }) ∨
       (state.ServiceType ≠ "water" ∧ state.Step = 3 ∧
          waterPrompt 7 6 "c" = model3DPrompt 7 4 "c" ∧
          (handleMessage "t" (Store.put Store.empty 7 ⟨7, "water", 5, []⟩) 7 "c").1 7 =
            some { state with Step := 4, Data := Data.set state.Data "contacts" "c" })) :=
  ⟨List.mem_singleton.mpr rfl, rfl,
    (buttons_recognised "t" (Store.put Store.empty 7 ⟨7, "water", 5, []⟩) 7).2.2.2.2.2 "c"
      (waterPrompt 7 6 "c") [[doneLabel], [restartLabel]] (List.mem_singleton.mpr rfl) rfl
      ⟨[doneLabel], List.mem_cons_self _ _, List.mem_singleton.mpr rfl⟩⟩

end Vitim
